import Mathlib

/-!
Verification development for the zkApp CLI deploy pipeline
(`src/lib/helpers.js`, function `deploy` and its helpers
`chooseSmartContract`, `sendGraphQL`).

The JavaScript source is shallowly embedded: JSON objects become
structures with `Option` fields (`none` models a missing/`undefined`
field), JS truthiness on strings becomes `truthyStr`, the interactive
prompts become functions over the operator-supplied input sequence, and
the two network calls become functions over an explicitly supplied fetch
behavior.  Every observable side effect of one `deploy` invocation
(printed lines, prompts shown, network requests issued, config.json
rewrites) is recorded in a `Trace`.
-/

namespace SnappCli

/-- JS truthiness for a possibly-missing string value: `undefined` and the
empty string are falsy, every other string is truthy. -/
def truthyStr : Option String → Bool
  | none => false
  | some s => !(s == "")

/-- One network alias entry of config.json:
`{url, fee, keyPath, smartContract}`, each field possibly absent. -/
structure NetworkCfg where
  url : Option String
  fee : Option String
  keyPath : Option String
  smartContract : Option String
deriving Repr, DecidableEq

/-- The parsed config.json: the top-level `networks` object, modelled as an
association list from alias name to its entry. -/
structure Config where
  networks : List (String × NetworkCfg)
deriving Repr, DecidableEq

/-- `config.networks[network]` (JS property lookup, `undefined` when the
alias key is absent). -/
def lookupNetwork (c : Config) (network : String) : Option NetworkCfg :=
  (c.networks.find? (fun p => p.1 == network)).map (fun p => p.2)

/-- `config.networks[network]?.smartContract` (optional chaining). -/
def cfgSmartContract (c : Config) (network : String) : Option String :=
  (lookupNetwork c network).bind (fun nc => nc.smartContract)

/-- `config.networks[network].smartContract = name` followed by
`fs.writeJSONSync` in deploy: the in-memory config with the entry for
`network` updated to record `name`. -/
def setSmartContract (c : Config) (network : String) (name : String) : Config :=
  ⟨c.networks.map (fun p =>
    if p.1 == network then (p.1, ⟨p.2.url, p.2.fee, p.2.keyPath, some name⟩) else p)⟩

/-- The parsed build/build.json: the list of smart-contract class names the
Build Artifact Reader discovered (`findSmartContracts`). -/
structure Build where
  smartContracts : List String
deriving Repr, DecidableEq

/-- `chooseSmartContract(config, deploy, network)` from helpers.js:
a configured truthy `smartContract` wins; else a single discovered
contract wins; else the empty string (falsy) is returned. -/
def chooseSmartContract (config : Config) (deploy : Build) (network : String) : String :=
  if truthyStr (cfgSmartContract config network) then
    (cfgSmartContract config network).getD ""
  else if deploy.smartContracts.length == 1 then
    deploy.smartContracts.headD ""
  else
    ""

/-- `Char.toLower` on every character: models JS
`String.prototype.toLowerCase()` (ASCII range; the exotic Unicode case
mappings of JS are not exercised by the CLI strings involved). -/
def jsToLowerCase (s : String) : String :=
  ⟨s.data.map Char.toLower⟩

/-- ASCII upper-case letter test, stated on the code point. -/
def isAsciiUpper (c : Char) : Bool :=
  decide (65 ≤ c.toNat) && decide (c.toNat ≤ 90)

/-- Whether a string contains an ASCII upper-case letter. -/
def containsUpperAscii (s : String) : Bool :=
  s.data.any isAsciiUpper

/-! ### The prompt validators

Both the fee prompt and the nonce prompt of deploy use the same
`validate` closure: reject empty input (`!val`), reject input whose JS
`Number` coercion is `NaN` (`isNaN(val)`), accept otherwise; and the same
`result` transform `val.trim().replace(/ /, "")` (the regex has no `g`
flag, so only the first space is removed). -/

/-- ASCII whitespace, as relevant to JS string trimming and `Number`
coercion on the prompt inputs (the further Unicode space characters JS
recognizes are not exercised here). -/
def isJsSpace (c : Char) : Bool :=
  c == ' ' || c == '\t' || c == '\n' || c == '\r' || c == '\x0b' || c == '\x0c'

/-- JS `String.prototype.trim()`: drop leading and trailing whitespace. -/
def jsTrim (s : String) : String :=
  ⟨((s.data.dropWhile isJsSpace).reverse.dropWhile isJsSpace).reverse⟩

/-- Drop a single leading `+` or `-` sign. -/
def stripSign : List Char → List Char
  | '+' :: cs => cs
  | '-' :: cs => cs
  | cs => cs

/-- Recognizer for the exponent tail after `e`/`E`: optional sign then at
least one digit. -/
def expTail (cs : List Char) : Bool :=
  let cs := stripSign cs
  !(cs.isEmpty) && cs.all Char.isDigit

/-- Recognizer for what may follow the fractional digits: nothing, or an
exponent part. -/
def expOk : List Char → Bool
  | [] => true
  | 'e' :: t => expTail t
  | 'E' :: t => expTail t
  | _ => false

/-- Recognizer for an unsigned JS decimal numeric literal:
`digits`, `digits.digits?`, `.digits`, each with an optional exponent. -/
def isDecimalNumeral (cs : List Char) : Bool :=
  let intPart := cs.takeWhile Char.isDigit
  let rest := cs.dropWhile Char.isDigit
  match rest with
  | [] => !(intPart.isEmpty)
  | '.' :: rest2 =>
    let frac := rest2.takeWhile Char.isDigit
    let rest3 := rest2.dropWhile Char.isDigit
    (!(intPart.isEmpty) || !(frac.isEmpty)) && expOk rest3
  | 'e' :: t => !(intPart.isEmpty) && expTail t
  | 'E' :: t => !(intPart.isEmpty) && expTail t
  | _ => false

/-- Models JS `isNaN(s)` (i.e. `Number(s)` is `NaN`) on the decimal string
inputs the deploy prompts deal in: `Number` trims whitespace, maps the
empty/whitespace-only string to `0` (not `NaN`), and otherwise parses an
optionally signed decimal literal.  The hexadecimal, binary, octal and
`Infinity` literal forms of `Number` are outside the fee/nonce input
grammar and are not modelled. -/
def jsIsNaN (s : String) : Bool :=
  let t := jsTrim s
  if t == "" then false
  else !(isDecimalNumeral (stripSign t.data))

/-- The shared `validate` closure of the fee and nonce prompts:
`if (!val) ...; if (isNaN(val)) ...; return true`. -/
def requiredNumberValidate (val : String) : Bool :=
  !(val == "") && !(jsIsNaN val)

/-- Remove the first space character, if any (JS `replace(/ /, "")`). -/
def removeFirstSpace : List Char → List Char
  | [] => []
  | c :: cs => if c == ' ' then cs else c :: removeFirstSpace cs

/-- The shared `result` transform of the fee and nonce prompts:
`val.trim().replace(/ /, "")`. -/
def promptResultTransform (s : String) : String :=
  ⟨removeFirstSpace (jsTrim s).data⟩

/-- An enquirer input prompt with a validator re-prompts on every rejected
input with no retry limit; over the operator-supplied input sequence it
yields the `result`-transformed first input passing `validate` (`none`
when the operator never supplies a valid input, i.e. cancels). -/
def promptFirstValid : List String → Option String
  | [] => none
  | v :: rest =>
    if requiredNumberValidate v then some (promptResultTransform v)
    else promptFirstValid rest

/-! ### sendGraphQL and the response shapes -/

/-- Response body shape common to both GraphQL operations:
`{data?, errors?}` as produced by `response.json()`.  The server `errors`
value is kept abstract as a string. -/
structure GqlBody (α : Type) where
  data : Option α
  errors : Option String
deriving Repr, DecidableEq

/-- Behavior of one `fetch` of a GraphQL endpoint, as supplied by the
environment: either the whole fetch-and-parse resolves after
`durationMs` with an HTTP status and body, or it rejects after
`durationMs` with a transport-level error (DNS, connection refused, ...). -/
inductive FetchBehavior (α : Type) where
  | responds (durationMs : Nat) (ok : Bool) (status : Nat) (statusText : String)
      (body : GqlBody α)
  | netError (durationMs : Nat) (message : String)
deriving Repr, DecidableEq

/-- Wall-clock time until the fetch settles. -/
def fetchDuration {α : Type} : FetchBehavior α → Nat
  | .responds d _ _ _ _ => d
  | .netError d _ => d

/-- The error object `sendGraphQL` builds (`kind: "error"`): from a
non-success HTTP status it carries `statusCode`, `statusText` and the
server-provided `errors` as `message`; from a caught transport-level
exception it carries only the exception as `message`. -/
inductive GqlError where
  | http (statusCode : Nat) (statusText : String) (message : Option String)
  | transport (message : String)
deriving Repr, DecidableEq

/-- Return value of `sendGraphQL`: the parsed body on HTTP success, or the
`kind: "error"` object. -/
inductive GqlResult (α : Type) where
  | ok (body : GqlBody α)
  | error (e : GqlError)
deriving Repr, DecidableEq

/-- The message of the `AbortError` the fetch rejects with when the
20-second `AbortController` timer fires. -/
def abortErrorMessage : String := "AbortError: The user aborted a request."

/-- The 20000 ms timeout `sendGraphQL` arms via `setTimeout` +
`AbortController`. -/
def TIMEOUT_MS : Nat := 20000

/-- `sendGraphQL(graphQLEndpoint, query)` from helpers.js.  If the fetch
would settle only at or past the 20 s timer, the abort fires first and the
awaited fetch rejects with an `AbortError`, which the `catch` turns into a
transport-classified error object; a transport failure inside the bound is
likewise caught; an HTTP non-success status yields the http-classified
error object carrying the response status and the body `errors`; an HTTP
success returns the parsed body. -/
def sendGraphQL {α : Type} (behavior : FetchBehavior α) : GqlResult α :=
  if TIMEOUT_MS ≤ fetchDuration behavior then
    .error (.transport abortErrorMessage)
  else
    match behavior with
    | .netError _ msg => .error (.transport msg)
    | .responds _ ok status statusText body =>
      if ok then .ok body
      else .error (.http status statusText body.errors)

/-- `data.account` object of the account query response:
`{publicKey?, nonce?}` (the nonce travels as a JSON string). -/
structure AccountObj where
  publicKey : Option String
  nonce : Option String
deriving Repr, DecidableEq

/-- `data` object of the account query response. -/
structure AccountData where
  account : Option AccountObj
deriving Repr, DecidableEq

/-- `zkapp` object of the submission response:
`{id?, hash?, ...}`, where a `kind` of `"error"` marks failure. -/
structure ZkappObj where
  id : Option String
  hash : Option String
  kind : Option String
deriving Repr, DecidableEq

/-- `data.sendZkapp` object of the submission response. -/
structure SendZkappObj where
  zkapp : Option ZkappObj
deriving Repr, DecidableEq

/-- `data` object of the submission response. -/
structure SubmitData where
  sendZkapp : Option SendZkappObj
deriving Repr, DecidableEq

/-- `response?.data?.account?.nonce` where `response` is what
`sendGraphQL` returned: optional chaining yields `undefined` (`none`) on
the error object and on any missing link. -/
def gqlNonce (r : GqlResult AccountData) : Option String :=
  match r with
  | .error _ => none
  | .ok body => (body.data.bind (fun d => d.account)).bind (fun a => a.nonce)

/-- The step-value `txn` computed by deploy from the submission call:
`(await sendGraphQL(...)).data.sendZkapp.zkapp` inside a `try`.  On the
error object (which has no `data`) and whenever `data` or `sendZkapp` is
missing, the unguarded property access throws a `TypeError`, which the
`catch` returns as the step value (`caughtError`); with the envelope
present, a missing `zkapp` is plain `undefined`; otherwise the `zkapp`
object itself. -/
inductive TxnVal where
  | jsUndefined
  | zkappObj (z : ZkappObj)
  | caughtError
deriving Repr, DecidableEq

/-- See `TxnVal`. -/
def extractTxn (r : GqlResult SubmitData) : TxnVal :=
  match r with
  | .error _ => .caughtError
  | .ok body =>
    match body.data with
    | none => .caughtError
    | some d =>
      match d.sendZkapp with
      | none => .caughtError
      | some sz =>
        match sz.zkapp with
        | none => .jsUndefined
        | some z => .zkappObj z

/-- deploy line `if (!txn || txn?.kind === "error")`: `undefined` is
falsy; an object is truthy and fails only with `kind` exactly `"error"`
(the caught `TypeError` has no `kind` and so passes the check). -/
def txnIsFailure : TxnVal → Bool
  | .jsUndefined => true
  | .zkappObj z => z.kind == some "error"
  | .caughtError => false

/-- `txn.hash` of the step value (`none` models JS `undefined`). -/
def txnHash : TxnVal → Option String
  | .zkappObj z => z.hash
  | _ => none

/-! ### Signing -/

/-- The `feePayerDeploy` object deploy builds before signing:
`{feePayer, nonce, fee, memo}`. -/
structure FeePayerDeploy where
  feePayer : String
  nonce : String
  fee : String
  memo : String
deriving Repr, DecidableEq

/-- The signed transaction returned by mina-signer
`client.signTransaction({parties, feePayer}, privateKey)`: its `data`
carries the parties payload and the fee-payer record; the signature is
abstracted as the key it was produced with. -/
structure SignedPayment where
  parties : String
  feePayer : FeePayerDeploy
  signedWith : String
deriving Repr, DecidableEq

/-- mina-signer `client.signTransaction`, abstracted: it packages the
payload, fee-payer record and signature; deploy reads back
`signedPayment.data.parties` and we state properties of the fee-payer
fields. -/
def signTransaction (parties : String) (fp : FeePayerDeploy) (privateKey : String) :
    SignedPayment :=
  ⟨parties, fp, privateKey⟩

/-- mina-signer `client.derivePublicKey`, abstracted as an injective
tagging of the secret key. -/
def derivePublicKey (privateKey : String) : String :=
  "PUB:" ++ privateKey

/-- deploy line 295: `` fee: `${fee}000000000` `` — the nanomina fee is
produced by string-concatenating nine zero digits to the prompted MINA
fee string. -/
def feeToNanomina (fee : String) : String :=
  fee ++ "000000000"

/-! ### The deploy pipeline

`deploy` is embedded as a pure function of an environment holding
everything the invocation observes from the outside world, returning its
outcome together with the trace of its observable effects. -/

/-- The JSON key file `{privateKey, publicKey}`. -/
structure KeyFile where
  privateKey : String
  publicKey : String
deriving Repr, DecidableEq

/-- Look a path up in the key-file portion of the project file system. -/
def lookupKeyFile (fsys : List (String × KeyFile)) (p : String) : Option KeyFile :=
  (fsys.find? (fun q => q.1 == p)).map (fun q => q.2)

/-- Result of `fs.readJSONSync(DIR/config.json)`: the file may be absent
(ENOENT), unreadable/unparsable, or parsed. -/
inductive ConfigRead where
  | enoent
  | unreadable
  | ok (config : Config)
deriving Repr, DecidableEq

/-- An interactive prompt shown to the operator during one deploy run. -/
inductive PromptEvent where
  | selectContract (choices : List String)
  | feePrompt
  | noncePrompt
  | confirmPrompt
deriving Repr, DecidableEq

/-- Whether a prompt is the contract-selection prompt. -/
def isSelectPrompt : PromptEvent → Bool
  | .selectContract _ => true
  | _ => false

/-- A prompt list containing no contract-selection prompt. -/
def selectFree (l : List PromptEvent) : Bool :=
  l.all (fun e => !isSelectPrompt e)

/-- A prompt list containing no confirmation prompt. -/
def confirmFree (l : List PromptEvent) : Bool :=
  l.all (fun e => !(e == .confirmPrompt))

/-- A network request issued during one deploy run. -/
inductive NetworkCall where
  | accountQuery (endpoint : String) (publicKey : String)
  | submit (endpoint : String) (parties : String)
deriving Repr, DecidableEq

/-- Whether a network call is the transaction-submission mutation. -/
def isSubmitCall : NetworkCall → Bool
  | .submit _ _ => true
  | .accountQuery _ _ => false

/-- How many submission mutations a call list contains. -/
def countSubmits (l : List NetworkCall) : Nat :=
  (l.filter isSubmitCall).length

/-- The observable effects of one deploy run, in order within each
category: lines printed via `log`, prompts shown, network requests
issued, and the configs written to config.json. -/
structure Trace where
  logs : List String
  prompts : List PromptEvent
  networkCalls : List NetworkCall
  configWrites : List Config
deriving Repr, DecidableEq

/-- The empty trace. -/
def Trace.empty : Trace := ⟨[], [], [], []⟩

/-- Record a printed line. -/
def Trace.addLog (t : Trace) (s : String) : Trace :=
  ⟨t.logs ++ [s], t.prompts, t.networkCalls, t.configWrites⟩

/-- Record a prompt shown to the operator. -/
def Trace.addPrompt (t : Trace) (e : PromptEvent) : Trace :=
  ⟨t.logs, t.prompts ++ [e], t.networkCalls, t.configWrites⟩

/-- Record an issued network request. -/
def Trace.addCall (t : Trace) (c : NetworkCall) : Trace :=
  ⟨t.logs, t.prompts, t.networkCalls ++ [c], t.configWrites⟩

/-- Record a config.json rewrite. -/
def Trace.addWrite (t : Trace) (c : Config) : Trace :=
  ⟨t.logs, t.prompts, t.networkCalls, t.configWrites ++ [c]⟩

/-- How one deploy invocation ends.  Constructors follow the early
returns of the source in order. -/
inductive Outcome where
  | configNotFound
  | configUnreadable
  | networkNotFound
  | urlMissing
  | buildFailed
  | selectionCancelled
  | importFailed
  | exportMissing
  | keyReadFailed
  | feeCancelled
  | feeAbandoned
  | nonceCancelled
  | aborted
  | relayerFailed
  | success (hash : Option String) (txUrl : String)
deriving Repr, DecidableEq

/-- Result of one deploy run: outcome, effect trace, and the signed
transaction if the run got as far as signing. -/
structure DeployResult where
  outcome : Outcome
  trace : Trace
  signed : Option SignedPayment
deriving Repr, DecidableEq

/-- Everything one deploy invocation observes from the outside world:
the config read, whether `npm run build` succeeds, the discovered
contracts, the operator inputs to the four prompts (`none`/exhaustion
models interactive cancellation), whether the contract module import and
named export resolve, the key files on disk, the parties payload the
transaction builder produces, and the behavior of the two network
fetches. -/
structure DeployEnv where
  configRead : ConfigRead
  buildOk : Bool
  build : Build
  selectInput : Option String
  importOk : Bool
  exportPresent : Bool
  keyFiles : List (String × KeyFile)
  partiesJson : String
  feeInputs : List String
  accountFetch : FetchBehavior AccountData
  nonceInputs : List String
  confirmInput : String
  submitFetch : FetchBehavior SubmitData
deriving Repr, DecidableEq

/-- `https://proxy.berkeley.minaexplorer.com/graphql`. -/
def DEFAULT_GRAPHQL : String := "https://proxy.berkeley.minaexplorer.com/graphql"

/-- Explorer URL base used on success. -/
def txUrlBase : String := "https://berkeley.minaexplorer.com/transaction/"

/- Printed messages.  Quoting marks and the newline layout of the source
strings are elided; wording is otherwise kept. -/

/-- Line printed when config.json is absent. -/
def msgConfigNotFound : String :=
  "config.json not found. Make sure you are in a zkApp project."

/-- Line printed when config.json cannot be read or parsed. -/
def msgConfigUnreadable : String := "Unable to read config.json."

/-- First line printed when the alias is not in config.json. -/
def msgNetworkNotFound1 : String := "Network name not found in config.json."

/-- Second line printed when the alias is not in config.json. -/
def msgNetworkNotFound2 : String := "You can add a network by running zk config."

/-- First line printed when the alias has no url. -/
def msgUrlMissing1 : String :=
  "No url property is specified for this network in config.json."

/-- Second line printed when the alias has no url. -/
def msgUrlMissing2 : String := "Please correct your config.json and try again."

/-- Info line when the configured smart contract is used. -/
def msgChoseConfigured (sc : String) : String :=
  "  The " ++ sc ++ " smart contract will be used for this network as specified in config.json."

/-- Info line when the single discovered smart contract is used. -/
def msgChoseOnly (sc : String) : String :=
  "  Only one smart contract exists in the project: " ++ sc

/-- Info line after persisting the contract choice. -/
def msgConfigUpdated : String :=
  "  Your config.json was updated to always use this smart contract when deploying to this network."

/-- Error line when the contract module cannot be imported. -/
def msgImportFailed (c : String) : String :=
  "  Failed to find the " ++ c ++ " smart contract in your build directory. Please confirm that your config.json contains the name of the smart contract that you desire to deploy to this network alias."

/-- Error line when the named export is missing. -/
def msgExportMissing (c : String) : String :=
  "  Failed to find the " ++ c ++ " smart contract in your build directory. Check that you have exported your smart contract class using a named export and try again."

/-- Error line when the key file cannot be read (the doubled word is in
the source). -/
def msgKeyReadFailed : String :=
  "  Failed to find the the zkapp private key. Please make sure your config.json has the correct keyPath property."

/-- Line printed by the confirmation prompt on any non-affirmative
input, just before the process exits. -/
def msgAborted : String := "  Aborted. Transaction not sent."

/-- Error line when the relayer submission is reported failed. -/
def msgRelayerFailed : String :=
  "  Failed to send transaction to relayer. Please try again."

/-- Success banner (newline layout elided). -/
def msgSuccess (txUrl : String) : String :=
  "Success! Deploy transaction sent. Your smart contract will be live (or updated) as soon as the transaction is included in a block: " ++ txUrl

/-- Stage 8 (source lines 363-392): issue the submission mutation, build
the step value `txn` from the response, and classify. -/
def submitStage (env : DeployEnv) (endpoint : String) (signed : SignedPayment)
    (t : Trace) : DeployResult :=
  let t := t.addCall (.submit endpoint signed.parties)
  let txn := extractTxn (sendGraphQL env.submitFetch)
  if txnIsFailure txn then
    ⟨.relayerFailed, t.addLog msgRelayerFailed, some signed⟩
  else
    let txUrl := txUrlBase ++ (txnHash txn).getD "undefined"
    ⟨.success (txnHash txn) txUrl, t.addLog (msgSuccess txUrl), some signed⟩

/-- Stage 7 (source lines 310-361): the confirmation gate.  With the
`--yes` flag, `confirm` is set to `"yes"` without prompting.  Otherwise
the operator input is lowercased; anything other than `"yes"`/`"y"`
prints the abort line and terminates without submitting; the final
fail-safe re-check always passes on the surviving paths. -/
def confirmStage (env : DeployEnv) (yes : Bool) (endpoint : String)
    (signed : SignedPayment) (t : Trace) : DeployResult :=
  if yes then
    submitStage env endpoint signed t
  else
    let t := t.addPrompt .confirmPrompt
    let v := jsToLowerCase env.confirmInput
    if v == "yes" || v == "y" then
      submitStage env endpoint signed t
    else
      ⟨.aborted, t.addLog msgAborted, some signed⟩

/-- Stage 6 (source lines 291-302): build the fee-payer record (fee is
the prompted MINA string with nine zeros appended) and sign. -/
def signStage (env : DeployEnv) (yes : Bool) (endpoint : String)
    (privateKey feePayer fee nonce : String) (t : Trace) : DeployResult :=
  let fp : FeePayerDeploy := ⟨feePayer, nonce, feeToNanomina fee, ""⟩
  let signed := signTransaction env.partiesJson fp privateKey
  confirmStage env yes endpoint signed t

/-- Stage 5 (source lines 267-290): query the account nonce at the
endpoint; on a truthy nonce in the response use it, otherwise fall back
to the numeric nonce prompt (re-prompting until valid input or
cancellation). -/
def nonceStage (env : DeployEnv) (yes : Bool) (endpoint : String)
    (privateKey feePayer fee : String) (t : Trace) : DeployResult :=
  let t := t.addCall (.accountQuery endpoint feePayer)
  let r := sendGraphQL env.accountFetch
  if truthyStr (gqlNonce r) then
    signStage env yes endpoint privateKey feePayer fee ((gqlNonce r).getD "") t
  else
    let t := t.addPrompt .noncePrompt
    match promptFirstValid env.nonceInputs with
    | none => ⟨.nonceCancelled, t, none⟩
    | some nonce => signStage env yes endpoint privateKey feePayer fee nonce t

/-- Stage 4 (source lines 246-268): prompt for the fee; a silently empty
post-transform fee abandons the run (`if (!fee) return`); then derive the
fee payer from the private key and read the endpoint
(`config?.networks[network]?.url ?? DEFAULT_GRAPHQL`). -/
def feeStage (env : DeployEnv) (yes : Bool) (network : String) (config : Config)
    (privateKey : String) (t : Trace) : DeployResult :=
  let t := t.addPrompt .feePrompt
  match promptFirstValid env.feeInputs with
  | none => ⟨.feeCancelled, t, none⟩
  | some fee =>
    if fee == "" then ⟨.feeAbandoned, t, none⟩
    else
      let feePayer := derivePublicKey privateKey
      let endpoint := ((lookupNetwork config network).bind (fun nc => nc.url)).getD DEFAULT_GRAPHQL
      nonceStage env yes endpoint privateKey feePayer fee t

/-- Stage 3b (source lines 176-243): import the contract module, check
the named export, read `DIR/keys/NETWORK.json` and take its `privateKey`
field (only that field is consumed), then compile and build the
transaction (their outputs enter through the environment). -/
def importStage (env : DeployEnv) (yes : Bool) (network : String) (config : Config)
    (contractName : String) (t : Trace) : DeployResult :=
  if !env.importOk then
    ⟨.importFailed, t.addLog (msgImportFailed contractName), none⟩
  else if !env.exportPresent then
    ⟨.exportMissing, t.addLog (msgExportMissing contractName), none⟩
  else
    match lookupKeyFile env.keyFiles ("keys/" ++ network ++ ".json") with
    | none => ⟨.keyReadFailed, t.addLog msgKeyReadFailed, none⟩
    | some kf => feeStage env yes network config kf.privateKey t

/-- Stage 3a (source lines 164-174): persist the resolved contract name
into config.json when it differs from what is stored, then continue with
the (possibly updated) config. -/
def persistStage (env : DeployEnv) (yes : Bool) (network : String) (config : Config)
    (contractName : String) (t : Trace) : DeployResult :=
  if cfgSmartContract config network == some contractName then
    importStage env yes network config contractName t
  else
    let config' := setSmartContract config network contractName
    importStage env yes network config' contractName
      ((t.addWrite config').addLog msgConfigUpdated)

/-- Stage 3 (source lines 121-162): resolve the contract via
`chooseSmartContract`; on a falsy result show the selection prompt over
the discovered list (cancellation ends the run), otherwise print which
contract is used and why. -/
def resolveStage (env : DeployEnv) (yes : Bool) (network : String) (config : Config)
    (t : Trace) : DeployResult :=
  let chosen := chooseSmartContract config env.build network
  if chosen == "" then
    let t := t.addPrompt (.selectContract env.build.smartContracts)
    match env.selectInput with
    | none => ⟨.selectionCancelled, t, none⟩
    | some sel => persistStage env yes network config sel t
  else
    let t :=
      if truthyStr (cfgSmartContract config network) then
        t.addLog (msgChoseConfigured chosen)
      else
        t.addLog (msgChoseOnly (env.build.smartContracts.headD ""))
    persistStage env yes network config chosen t

/-- `deploy({network, yes})` from helpers.js (source lines 70-392):
read config.json, lowercase the alias, check the alias and its url,
run the build, then hand over to contract resolution and the rest of
the pipeline. -/
def deploy (env : DeployEnv) (network0 : String) (yes : Bool) : DeployResult :=
  match env.configRead with
  | .enoent => ⟨.configNotFound, Trace.empty.addLog msgConfigNotFound, none⟩
  | .unreadable => ⟨.configUnreadable, Trace.empty.addLog msgConfigUnreadable, none⟩
  | .ok config =>
    let network := jsToLowerCase network0
    match lookupNetwork config network with
    | none =>
      ⟨.networkNotFound,
        (Trace.empty.addLog msgNetworkNotFound1).addLog msgNetworkNotFound2, none⟩
    | some nc =>
      if truthyStr nc.url then
        if env.buildOk then resolveStage env yes network config Trace.empty
        else ⟨.buildFailed, Trace.empty, none⟩
      else
        ⟨.urlMissing, (Trace.empty.addLog msgUrlMissing1).addLog msgUrlMissing2, none⟩

/-! ### Concrete environments used by the witnesses and counterexamples -/

/-- A `testnet` alias entry with a url, fee, keyPath and configured
contract. -/
def testnetCfg : NetworkCfg :=
  ⟨some "https://example/graphql", some "0.1", some "keys/testnet.json", some "Foo"⟩

/-- A config holding only the `testnet` alias. -/
def happyConfig : Config := ⟨[("testnet", testnetCfg)]⟩

/-- Account query response body carrying nonce `"3"`. -/
def happyAccountBody : GqlBody AccountData :=
  ⟨some ⟨some ⟨some "PUB:SK", some "3"⟩⟩, none⟩

/-- Submission response body carrying transaction hash `"0xabc"`. -/
def happySubmitBody : GqlBody SubmitData :=
  ⟨some ⟨some ⟨some ⟨some "1", some "0xabc", none⟩⟩⟩, none⟩

/-- A fully successful environment: config and key file present, one
contract `Foo` discovered and configured, fee input `0.01`, network
answering the nonce query with `3` and the submission with hash
`0xabc`. -/
def happyEnv : DeployEnv :=
  ⟨.ok happyConfig, true, ⟨["Foo"]⟩, none, true, true,
    [("keys/testnet.json", ⟨"SK", "PK"⟩)], "PARTIES",
    ["0.01"], .responds 100 true 200 "OK" happyAccountBody,
    [], "yes", .responds 100 true 200 "OK" happySubmitBody⟩

/-- The signed payment `happyEnv` produces. -/
def happyPayment : SignedPayment :=
  ⟨"PARTIES", ⟨"PUB:SK", "3", "0.01000000000", ""⟩, "SK"⟩

/-- `happyEnv` with confirmation input `no`. -/
def abortEnv : DeployEnv := { happyEnv with confirmInput := "no" }

/-- `happyEnv` with confirmation input `YES`. -/
def yesUpperEnv : DeployEnv := { happyEnv with confirmInput := "YES" }

/-- `happyEnv` with confirmation input `y`. -/
def yEnv : DeployEnv := { happyEnv with confirmInput := "y" }

/-- `testnet` alias entry without a url. -/
def noUrlConfig : Config :=
  ⟨[("testnet", ⟨none, some "0.1", some "keys/testnet.json", some "Foo"⟩)]⟩

/-- `happyEnv` whose alias entry lacks a url. -/
def noUrlEnv : DeployEnv := { happyEnv with configRead := .ok noUrlConfig }

/-- `testnet` alias entry without a stored smartContract. -/
def noScConfig : Config :=
  ⟨[("testnet", ⟨some "https://example/graphql", some "0.1", some "keys/testnet.json", none⟩)]⟩

/-- `happyEnv` without a stored smartContract. -/
def noScEnv : DeployEnv := { happyEnv with configRead := .ok noScConfig }

/-- Two discovered contracts, nothing stored, operator selects `A`. -/
def selEnv : DeployEnv :=
  { happyEnv with
    configRead := .ok noScConfig
    build := ⟨["A", "B"]⟩
    selectInput := some "A" }

/-- Account query response whose nonce field is present but empty, and an
operator nonce input of `7`. -/
def emptyNonceEnv : DeployEnv :=
  { happyEnv with
    accountFetch := .responds 100 true 200 "OK" ⟨some ⟨some ⟨some "PUB:SK", some ""⟩⟩, none⟩
    nonceInputs := ["7"] }

/-- Account query that would settle only after 25 seconds. -/
def slowNonceEnv : DeployEnv :=
  { happyEnv with
    accountFetch := .responds 25000 true 200 "OK" happyAccountBody
    nonceInputs := ["5"] }

/-- Submission HTTP 200 whose body has no `data` (e.g. a GraphQL
request-error response). -/
def missingDataEnv : DeployEnv :=
  { happyEnv with submitFetch := .responds 100 true 200 "OK" ⟨none, some "Invalid query"⟩ }

/-- Submission HTTP 200 whose zkapp object is marked `kind: "error"`. -/
def kindErrorEnv : DeployEnv :=
  { happyEnv with
    submitFetch := .responds 100 true 200 "OK"
      ⟨some ⟨some ⟨some ⟨none, none, some "error"⟩⟩⟩, none⟩ }

/-- `testnet` alias entry whose keyPath points at a custom location. -/
def customKeyPathConfig : Config :=
  ⟨[("testnet",
      ⟨some "https://example/graphql", some "0.1", some "mykeys/custom.json", some "Foo"⟩)]⟩

/-- Key file present exactly at the configured custom keyPath. -/
def customKeyPathEnv : DeployEnv :=
  { happyEnv with
    configRead := .ok customKeyPathConfig
    keyFiles := [("mykeys/custom.json", ⟨"SK2", "PK2"⟩)] }

/-- Key files at both the configured keyPath and `keys/testnet.json`. -/
def bothKeyFilesEnv : DeployEnv :=
  { happyEnv with
    configRead := .ok customKeyPathConfig
    keyFiles := [("mykeys/custom.json", ⟨"SK2", "PK2"⟩),
                 ("keys/testnet.json", ⟨"SK1", "PK1"⟩)] }

/-- A config whose only alias key contains upper-case letters. -/
def upperKeyConfig : Config := ⟨[("Mainnet", testnetCfg)]⟩

/-- `happyEnv` over `upperKeyConfig`. -/
def upperKeyEnv : DeployEnv := { happyEnv with configRead := .ok upperKeyConfig }

/-! ## Helper lemmas -/

/-- `Char.toLower` never yields an ASCII upper-case letter. -/
theorem isAsciiUpper_toLower (c : Char) : isAsciiUpper c.toLower = false := by
  simp only [Char.toLower]
  split
  · next h =>
    obtain ⟨h1, h2⟩ := h
    generalize c.toNat = n at h1 h2 ⊢
    interval_cases n <;> decide
  · next h =>
    simp only [isAsciiUpper, Bool.and_eq_false_iff, decide_eq_false_iff_not]
    omega

/-- A character-wise lowercased list has no ASCII upper-case letter. -/
theorem any_isAsciiUpper_map_toLower (l : List Char) :
    (l.map Char.toLower).any isAsciiUpper = false := by
  induction l with
  | nil => rfl
  | cons c cs ih => simp [List.any_cons, isAsciiUpper_toLower, ih]

/-- A JS-lowercased string contains no ASCII upper-case letter. -/
theorem containsUpperAscii_jsToLowerCase (s : String) :
    containsUpperAscii (jsToLowerCase s) = false := by
  simpa [containsUpperAscii, jsToLowerCase] using any_isAsciiUpper_map_toLower s.data

/-- Submission counting distributes over append. -/
theorem countSubmits_append (l l' : List NetworkCall) :
    countSubmits (l ++ l') = countSubmits l + countSubmits l' := by
  simp [countSubmits, List.filter_append]

@[simp] theorem countSubmits_nil : countSubmits [] = 0 := rfl

@[simp] theorem countSubmits_accountQuery (e p : String) :
    countSubmits [.accountQuery e p] = 0 := rfl

@[simp] theorem countSubmits_submit (e q : String) :
    countSubmits [.submit e q] = 1 := rfl

/-- The submit stage always returns the signed payment it was given. -/
theorem submitStage_signed {env : DeployEnv} {ep : String} {s : SignedPayment} {t : Trace} :
    (submitStage env ep s t).signed = some s := by
  simp only [submitStage]
  split <;> rfl

/-- The submit stage issues exactly one submission call. -/
theorem submitStage_calls {env : DeployEnv} {ep : String} {s : SignedPayment} {t : Trace} :
    (submitStage env ep s t).trace.networkCalls = t.networkCalls ++ [.submit ep s.parties] := by
  simp only [submitStage]
  split <;> simp [Trace.addCall, Trace.addLog]

/-- The submit stage shows no prompt. -/
theorem submitStage_prompts {env : DeployEnv} {ep : String} {s : SignedPayment} {t : Trace} :
    (submitStage env ep s t).trace.prompts = t.prompts := by
  simp only [submitStage]
  split <;> simp [Trace.addCall, Trace.addLog]

/-- The submit stage writes no config. -/
theorem submitStage_writes {env : DeployEnv} {ep : String} {s : SignedPayment} {t : Trace} :
    (submitStage env ep s t).trace.configWrites = t.configWrites := by
  simp only [submitStage]
  split <;> simp [Trace.addCall, Trace.addLog]

/-- The submit stage never ends in the aborted outcome. -/
theorem submitStage_ne_aborted {env : DeployEnv} {ep : String} {s : SignedPayment} {t : Trace} :
    (submitStage env ep s t).outcome ≠ .aborted := by
  simp only [submitStage]
  split <;> simp

/-- The confirmation gate always returns the signed payment it was given. -/
theorem confirmStage_signed {env : DeployEnv} {yes : Bool} {ep : String} {s : SignedPayment}
    {t : Trace} : (confirmStage env yes ep s t).signed = some s := by
  simp only [confirmStage]
  split
  · exact submitStage_signed
  · split
    · exact submitStage_signed
    · rfl

/-- With the auto-confirm flag, the gate submits without prompting. -/
theorem confirmStage_yes {env : DeployEnv} {ep : String} {s : SignedPayment} {t : Trace} :
    confirmStage env true ep s t = submitStage env ep s t := by
  simp [confirmStage]

/-- Interactive gate, non-affirmative input: abort with no further effect. -/
theorem confirmStage_bad {env : DeployEnv} {ep : String} {s : SignedPayment} {t : Trace}
    (h : (jsToLowerCase env.confirmInput == "yes" || jsToLowerCase env.confirmInput == "y")
          = false) :
    confirmStage env false ep s t
      = ⟨.aborted, (t.addPrompt .confirmPrompt).addLog msgAborted, some s⟩ := by
  simp only [confirmStage, Bool.false_eq_true, if_false]
  rw [h]
  simp

/-- Interactive gate, affirmative input: submit after the prompt. -/
theorem confirmStage_good {env : DeployEnv} {ep : String} {s : SignedPayment} {t : Trace}
    (h : (jsToLowerCase env.confirmInput == "yes" || jsToLowerCase env.confirmInput == "y")
          = true) :
    confirmStage env false ep s t = submitStage env ep s (t.addPrompt .confirmPrompt) := by
  simp only [confirmStage, Bool.false_eq_true, if_false]
  rw [h]
  simp

/-- The gate writes no config. -/
theorem confirmStage_writes {env : DeployEnv} {yes : Bool} {ep : String} {s : SignedPayment}
    {t : Trace} : (confirmStage env yes ep s t).trace.configWrites = t.configWrites := by
  simp only [confirmStage]
  split
  · exact submitStage_writes
  · split
    · rw [submitStage_writes]
      simp [Trace.addPrompt]
    · simp [Trace.addPrompt, Trace.addLog]

/-- Prompts after the gate: at most the confirmation prompt is added. -/
theorem confirmStage_prompts {env : DeployEnv} {yes : Bool} {ep : String} {s : SignedPayment}
    {t : Trace} :
    (confirmStage env yes ep s t).trace.prompts = t.prompts ∨
    (confirmStage env yes ep s t).trace.prompts = t.prompts ++ [.confirmPrompt] := by
  simp only [confirmStage]
  split
  · exact Or.inl submitStage_prompts
  · split
    · right
      rw [submitStage_prompts]
      simp [Trace.addPrompt]
    · right
      simp [Trace.addPrompt, Trace.addLog]

/-- The sign stage packages exactly the prompted fee (nine zeros appended),
the resolved nonce, the derived fee payer and the private key. -/
theorem signStage_signed {env : DeployEnv} {yes : Bool} {ep sk fpk fee nonce : String}
    {t : Trace} :
    (signStage env yes ep sk fpk fee nonce t).signed
      = some ⟨env.partiesJson, ⟨fpk, nonce, feeToNanomina fee, ""⟩, sk⟩ := by
  simp only [signStage, signTransaction]
  exact confirmStage_signed

/-- The sign stage writes no config. -/
theorem signStage_writes {env : DeployEnv} {yes : Bool} {ep sk fpk fee nonce : String}
    {t : Trace} :
    (signStage env yes ep sk fpk fee nonce t).trace.configWrites = t.configWrites := by
  simp only [signStage, signTransaction]
  exact confirmStage_writes

/-- Prompts after signing: at most the confirmation prompt is added. -/
theorem signStage_prompts {env : DeployEnv} {yes : Bool} {ep sk fpk fee nonce : String}
    {t : Trace} :
    (signStage env yes ep sk fpk fee nonce t).trace.prompts = t.prompts ∨
    (signStage env yes ep sk fpk fee nonce t).trace.prompts = t.prompts ++ [.confirmPrompt] := by
  simp only [signStage, signTransaction]
  exact confirmStage_prompts

/-- Bad interactive confirmation input: the gate aborts. -/
theorem confirmStage_outcome_bad {env : DeployEnv} {ep : String} {s : SignedPayment} {t : Trace}
    (h : (jsToLowerCase env.confirmInput == "yes" || jsToLowerCase env.confirmInput == "y")
          = false) :
    (confirmStage env false ep s t).outcome = .aborted := by
  rw [confirmStage_bad h]

/-- Bad interactive confirmation input: no submission is added. -/
theorem confirmStage_countSubmits_bad {env : DeployEnv} {ep : String} {s : SignedPayment}
    {t : Trace}
    (h : (jsToLowerCase env.confirmInput == "yes" || jsToLowerCase env.confirmInput == "y")
          = false) :
    countSubmits (confirmStage env false ep s t).trace.networkCalls
      = countSubmits t.networkCalls := by
  rw [confirmStage_bad h]
  simp [Trace.addPrompt, Trace.addLog]

/-- The gate adds at most one submission call. -/
theorem confirmStage_countSubmits_le {env : DeployEnv} {yes : Bool} {ep : String}
    {s : SignedPayment} {t : Trace} :
    countSubmits (confirmStage env yes ep s t).trace.networkCalls
      ≤ countSubmits t.networkCalls + 1 := by
  simp only [confirmStage]
  split
  · rw [submitStage_calls, countSubmits_append]
    simp
  · split
    · rw [submitStage_calls, countSubmits_append]
      simp [Trace.addPrompt]
    · simp [Trace.addPrompt, Trace.addLog]

/-- Affirmative gate (flag or input): exactly one submission is added. -/
theorem confirmStage_countSubmits_good {env : DeployEnv} {yes : Bool} {ep : String}
    {s : SignedPayment} {t : Trace}
    (h : yes = true ∨
      (jsToLowerCase env.confirmInput == "yes" || jsToLowerCase env.confirmInput == "y") = true) :
    countSubmits (confirmStage env yes ep s t).trace.networkCalls
      = countSubmits t.networkCalls + 1 := by
  rcases h with h | h
  · subst h
    rw [confirmStage_yes, submitStage_calls, countSubmits_append]
    simp
  · cases yes with
    | true =>
      rw [confirmStage_yes, submitStage_calls, countSubmits_append]
      simp
    | false =>
      rw [confirmStage_good h, submitStage_calls, countSubmits_append]
      simp [Trace.addPrompt]

/-- Affirmative gate (flag or input): the run does not abort. -/
theorem confirmStage_ne_aborted_good {env : DeployEnv} {yes : Bool} {ep : String}
    {s : SignedPayment} {t : Trace}
    (h : yes = true ∨
      (jsToLowerCase env.confirmInput == "yes" || jsToLowerCase env.confirmInput == "y") = true) :
    (confirmStage env yes ep s t).outcome ≠ .aborted := by
  rcases h with h | h
  · subst h
    rw [confirmStage_yes]
    exact submitStage_ne_aborted
  · cases yes with
    | true =>
      rw [confirmStage_yes]
      exact submitStage_ne_aborted
    | false =>
      rw [confirmStage_good h]
      exact submitStage_ne_aborted

/-- Bad confirmation input propagated through signing. -/
theorem signStage_outcome_bad {env : DeployEnv} {ep sk fpk fee nonce : String} {t : Trace}
    (h : (jsToLowerCase env.confirmInput == "yes" || jsToLowerCase env.confirmInput == "y")
          = false) :
    (signStage env false ep sk fpk fee nonce t).outcome = .aborted := by
  simp only [signStage, signTransaction]
  exact confirmStage_outcome_bad h

/-- Bad confirmation input: signing adds no submission. -/
theorem signStage_countSubmits_bad {env : DeployEnv} {ep sk fpk fee nonce : String} {t : Trace}
    (h : (jsToLowerCase env.confirmInput == "yes" || jsToLowerCase env.confirmInput == "y")
          = false) :
    countSubmits (signStage env false ep sk fpk fee nonce t).trace.networkCalls
      = countSubmits t.networkCalls := by
  simp only [signStage, signTransaction]
  exact confirmStage_countSubmits_bad h

/-- Signing adds at most one submission call. -/
theorem signStage_countSubmits_le {env : DeployEnv} {yes : Bool} {ep sk fpk fee nonce : String}
    {t : Trace} :
    countSubmits (signStage env yes ep sk fpk fee nonce t).trace.networkCalls
      ≤ countSubmits t.networkCalls + 1 := by
  simp only [signStage, signTransaction]
  exact confirmStage_countSubmits_le

/-- Affirmative confirmation: signing leads to exactly one submission. -/
theorem signStage_countSubmits_good {env : DeployEnv} {yes : Bool} {ep sk fpk fee nonce : String}
    {t : Trace}
    (h : yes = true ∨
      (jsToLowerCase env.confirmInput == "yes" || jsToLowerCase env.confirmInput == "y") = true) :
    countSubmits (signStage env yes ep sk fpk fee nonce t).trace.networkCalls
      = countSubmits t.networkCalls + 1 := by
  simp only [signStage, signTransaction]
  exact confirmStage_countSubmits_good h

/-- Affirmative confirmation: signing never aborts. -/
theorem signStage_ne_aborted_good {env : DeployEnv} {yes : Bool} {ep sk fpk fee nonce : String}
    {t : Trace}
    (h : yes = true ∨
      (jsToLowerCase env.confirmInput == "yes" || jsToLowerCase env.confirmInput == "y") = true) :
    (signStage env yes ep sk fpk fee nonce t).outcome ≠ .aborted := by
  simp only [signStage, signTransaction]
  exact confirmStage_ne_aborted_good h

/-- Truthy nonce in the account response: sign with it, no nonce prompt. -/
theorem nonceStage_truthy {env : DeployEnv} {yes : Bool} {ep sk fpk fee : String} {t : Trace}
    (ht : truthyStr (gqlNonce (sendGraphQL env.accountFetch)) = true) :
    nonceStage env yes ep sk fpk fee t
      = signStage env yes ep sk fpk fee ((gqlNonce (sendGraphQL env.accountFetch)).getD "")
          (t.addCall (.accountQuery ep fpk)) := by
  simp only [nonceStage, ht]
  simp

/-- Non-truthy nonce, valid prompted input: sign with the prompted nonce. -/
theorem nonceStage_fallback_some {env : DeployEnv} {yes : Bool} {ep sk fpk fee nv : String}
    {t : Trace}
    (ht : truthyStr (gqlNonce (sendGraphQL env.accountFetch)) = false)
    (hp : promptFirstValid env.nonceInputs = some nv) :
    nonceStage env yes ep sk fpk fee t
      = signStage env yes ep sk fpk fee nv
          ((t.addCall (.accountQuery ep fpk)).addPrompt .noncePrompt) := by
  simp only [nonceStage, ht, hp]
  simp

/-- Non-truthy nonce, prompt cancelled: the run ends. -/
theorem nonceStage_fallback_none {env : DeployEnv} {yes : Bool} {ep sk fpk fee : String}
    {t : Trace}
    (ht : truthyStr (gqlNonce (sendGraphQL env.accountFetch)) = false)
    (hp : promptFirstValid env.nonceInputs = none) :
    nonceStage env yes ep sk fpk fee t
      = ⟨.nonceCancelled, (t.addCall (.accountQuery ep fpk)).addPrompt .noncePrompt, none⟩ := by
  simp only [nonceStage, ht, hp]
  simp

/-- Any signed payment leaving the nonce stage carries the textual
nanomina scaling of the fee it was given. -/
theorem nonceStage_fee {env : DeployEnv} {yes : Bool} {ep sk fpk fee : String} {t : Trace}
    {sp : SignedPayment}
    (h : (nonceStage env yes ep sk fpk fee t).signed = some sp) :
    sp.feePayer.fee = feeToNanomina fee := by
  cases ht : truthyStr (gqlNonce (sendGraphQL env.accountFetch)) with
  | true =>
    rw [nonceStage_truthy ht, signStage_signed] at h
    cases Option.some.inj h
    rfl
  | false =>
    cases hp : promptFirstValid env.nonceInputs with
    | none =>
      rw [nonceStage_fallback_none ht hp] at h
      simp at h
    | some nv =>
      rw [nonceStage_fallback_some ht hp, signStage_signed] at h
      cases Option.some.inj h
      rfl

/-- The nonce stage writes no config. -/
theorem nonceStage_writes {env : DeployEnv} {yes : Bool} {ep sk fpk fee : String} {t : Trace} :
    (nonceStage env yes ep sk fpk fee t).trace.configWrites = t.configWrites := by
  cases ht : truthyStr (gqlNonce (sendGraphQL env.accountFetch)) with
  | true =>
    rw [nonceStage_truthy ht, signStage_writes]
    simp [Trace.addCall]
  | false =>
    cases hp : promptFirstValid env.nonceInputs with
    | none =>
      rw [nonceStage_fallback_none ht hp]
      simp [Trace.addCall, Trace.addPrompt]
    | some nv =>
      rw [nonceStage_fallback_some ht hp, signStage_writes]
      simp [Trace.addCall, Trace.addPrompt]

/-- Bad confirmation input: the nonce stage adds no submission. -/
theorem nonceStage_countSubmits_bad {env : DeployEnv} {ep sk fpk fee : String} {t : Trace}
    (h : (jsToLowerCase env.confirmInput == "yes" || jsToLowerCase env.confirmInput == "y")
          = false) :
    countSubmits (nonceStage env false ep sk fpk fee t).trace.networkCalls
      = countSubmits t.networkCalls := by
  cases ht : truthyStr (gqlNonce (sendGraphQL env.accountFetch)) with
  | true =>
    rw [nonceStage_truthy ht, signStage_countSubmits_bad h]
    simp [Trace.addCall, countSubmits_append]
  | false =>
    cases hp : promptFirstValid env.nonceInputs with
    | none =>
      rw [nonceStage_fallback_none ht hp]
      simp [Trace.addCall, Trace.addPrompt, countSubmits_append]
    | some nv =>
      rw [nonceStage_fallback_some ht hp, signStage_countSubmits_bad h]
      simp [Trace.addCall, Trace.addPrompt, countSubmits_append]

/-- The nonce stage adds at most one submission call. -/
theorem nonceStage_countSubmits_le {env : DeployEnv} {yes : Bool} {ep sk fpk fee : String}
    {t : Trace} :
    countSubmits (nonceStage env yes ep sk fpk fee t).trace.networkCalls
      ≤ countSubmits t.networkCalls + 1 := by
  cases ht : truthyStr (gqlNonce (sendGraphQL env.accountFetch)) with
  | true =>
    rw [nonceStage_truthy ht]
    calc countSubmits (signStage env yes ep sk fpk fee
            ((gqlNonce (sendGraphQL env.accountFetch)).getD "")
            (t.addCall (.accountQuery ep fpk))).trace.networkCalls
        ≤ countSubmits (t.addCall (.accountQuery ep fpk)).networkCalls + 1 :=
          signStage_countSubmits_le
      _ = countSubmits t.networkCalls + 1 := by
          simp [Trace.addCall, countSubmits_append]
  | false =>
    cases hp : promptFirstValid env.nonceInputs with
    | none =>
      rw [nonceStage_fallback_none ht hp]
      simp [Trace.addCall, Trace.addPrompt, countSubmits_append]
    | some nv =>
      rw [nonceStage_fallback_some ht hp]
      calc countSubmits (signStage env yes ep sk fpk fee nv
              ((t.addCall (.accountQuery ep fpk)).addPrompt .noncePrompt)).trace.networkCalls
          ≤ countSubmits ((t.addCall (.accountQuery ep fpk)).addPrompt
              .noncePrompt).networkCalls + 1 := signStage_countSubmits_le
        _ = countSubmits t.networkCalls + 1 := by
            simp [Trace.addCall, Trace.addPrompt, countSubmits_append]

/-- Bad confirmation input: a signed run through the nonce stage aborts. -/
theorem nonceStage_outcome_bad {env : DeployEnv} {ep sk fpk fee : String} {t : Trace}
    {sp : SignedPayment}
    (h : (jsToLowerCase env.confirmInput == "yes" || jsToLowerCase env.confirmInput == "y")
          = false)
    (hs : (nonceStage env false ep sk fpk fee t).signed = some sp) :
    (nonceStage env false ep sk fpk fee t).outcome = .aborted := by
  cases ht : truthyStr (gqlNonce (sendGraphQL env.accountFetch)) with
  | true =>
    rw [nonceStage_truthy ht]
    exact signStage_outcome_bad h
  | false =>
    cases hp : promptFirstValid env.nonceInputs with
    | none =>
      rw [nonceStage_fallback_none ht hp] at hs
      simp at hs
    | some nv =>
      rw [nonceStage_fallback_some ht hp]
      exact signStage_outcome_bad h

/-- Affirmative confirmation: the nonce stage never aborts. -/
theorem nonceStage_ne_aborted_good {env : DeployEnv} {yes : Bool} {ep sk fpk fee : String}
    {t : Trace}
    (h : yes = true ∨
      (jsToLowerCase env.confirmInput == "yes" || jsToLowerCase env.confirmInput == "y") = true) :
    (nonceStage env yes ep sk fpk fee t).outcome ≠ .aborted := by
  cases ht : truthyStr (gqlNonce (sendGraphQL env.accountFetch)) with
  | true =>
    rw [nonceStage_truthy ht]
    exact signStage_ne_aborted_good h
  | false =>
    cases hp : promptFirstValid env.nonceInputs with
    | none =>
      rw [nonceStage_fallback_none ht hp]
      simp
    | some nv =>
      rw [nonceStage_fallback_some ht hp]
      exact signStage_ne_aborted_good h

/-- Affirmative confirmation: a signed run through the nonce stage submits
exactly once. -/
theorem nonceStage_countSubmits_good {env : DeployEnv} {yes : Bool} {ep sk fpk fee : String}
    {t : Trace} {sp : SignedPayment}
    (h : yes = true ∨
      (jsToLowerCase env.confirmInput == "yes" || jsToLowerCase env.confirmInput == "y") = true)
    (hs : (nonceStage env yes ep sk fpk fee t).signed = some sp) :
    countSubmits (nonceStage env yes ep sk fpk fee t).trace.networkCalls
      = countSubmits t.networkCalls + 1 := by
  cases ht : truthyStr (gqlNonce (sendGraphQL env.accountFetch)) with
  | true =>
    rw [nonceStage_truthy ht, signStage_countSubmits_good h]
    simp [Trace.addCall, countSubmits_append]
  | false =>
    cases hp : promptFirstValid env.nonceInputs with
    | none =>
      rw [nonceStage_fallback_none ht hp] at hs
      simp at hs
    | some nv =>
      rw [nonceStage_fallback_some ht hp, signStage_countSubmits_good h]
      simp [Trace.addCall, Trace.addPrompt, countSubmits_append]

/-- Non-truthy nonce response: the nonce prompt is shown. -/
theorem nonceStage_noncePrompt {env : DeployEnv} {yes : Bool} {ep sk fpk fee : String}
    {t : Trace}
    (ht : truthyStr (gqlNonce (sendGraphQL env.accountFetch)) = false) :
    PromptEvent.noncePrompt ∈ (nonceStage env yes ep sk fpk fee t).trace.prompts := by
  cases hp : promptFirstValid env.nonceInputs with
  | none =>
    rw [nonceStage_fallback_none ht hp]
    simp [Trace.addCall, Trace.addPrompt]
  | some nv =>
    rw [nonceStage_fallback_some ht hp]
    rcases signStage_prompts with h2 | h2 <;> rw [h2] <;>
      simp [Trace.addCall, Trace.addPrompt]

/-- Truthy nonce response: no nonce prompt is ever shown. -/
theorem nonceStage_no_new_noncePrompt {env : DeployEnv} {yes : Bool} {ep sk fpk fee : String}
    {t : Trace}
    (ht : truthyStr (gqlNonce (sendGraphQL env.accountFetch)) = true)
    (h0 : PromptEvent.noncePrompt ∉ t.prompts) :
    PromptEvent.noncePrompt ∉ (nonceStage env yes ep sk fpk fee t).trace.prompts := by
  rw [nonceStage_truthy ht]
  rcases signStage_prompts with h2 | h2 <;> rw [h2] <;>
    simp [Trace.addCall, List.mem_append, h0]

/-- Truthy nonce response: the signed payment carries that nonce. -/
theorem nonceStage_truthy_signed {env : DeployEnv} {yes : Bool} {ep sk fpk fee : String}
    {t : Trace}
    (ht : truthyStr (gqlNonce (sendGraphQL env.accountFetch)) = true) :
    (nonceStage env yes ep sk fpk fee t).signed
      = some ⟨env.partiesJson,
          ⟨fpk, (gqlNonce (sendGraphQL env.accountFetch)).getD "", feeToNanomina fee, ""⟩,
          sk⟩ := by
  rw [nonceStage_truthy ht]
  exact signStage_signed

/-- Prompted nonce: the signed payment carries the prompted value. -/
theorem nonceStage_fallback_signed {env : DeployEnv} {yes : Bool} {ep sk fpk fee nv : String}
    {t : Trace}
    (ht : truthyStr (gqlNonce (sendGraphQL env.accountFetch)) = false)
    (hp : promptFirstValid env.nonceInputs = some nv) :
    (nonceStage env yes ep sk fpk fee t).signed
      = some ⟨env.partiesJson, ⟨fpk, nv, feeToNanomina fee, ""⟩, sk⟩ := by
  rw [nonceStage_fallback_some ht hp]
  exact signStage_signed

/-- `selectFree` distributes over append. -/
theorem selectFree_append (l l' : List PromptEvent) :
    selectFree (l ++ l') = (selectFree l && selectFree l') := by
  simp [selectFree, List.all_append]

@[simp] theorem selectFree_feePrompt : selectFree [.feePrompt] = true := rfl

@[simp] theorem selectFree_noncePrompt : selectFree [.noncePrompt] = true := rfl

@[simp] theorem selectFree_confirmPrompt : selectFree [.confirmPrompt] = true := rfl

@[simp] theorem selectFree_noncePrompt_confirmPrompt :
    selectFree [.noncePrompt, .confirmPrompt] = true := rfl

/-- The nonce stage never shows the contract-selection prompt. -/
theorem nonceStage_selectFree {env : DeployEnv} {yes : Bool} {ep sk fpk fee : String}
    {t : Trace} (h0 : selectFree t.prompts = true) :
    selectFree (nonceStage env yes ep sk fpk fee t).trace.prompts = true := by
  cases ht : truthyStr (gqlNonce (sendGraphQL env.accountFetch)) with
  | true =>
    rw [nonceStage_truthy ht]
    rcases signStage_prompts with h2 | h2 <;> rw [h2] <;>
      simp [Trace.addCall, selectFree_append, h0]
  | false =>
    cases hp : promptFirstValid env.nonceInputs with
    | none =>
      rw [nonceStage_fallback_none ht hp]
      simp [Trace.addCall, Trace.addPrompt, selectFree_append, h0]
    | some nv =>
      rw [nonceStage_fallback_some ht hp]
      rcases signStage_prompts with h2 | h2 <;> rw [h2] <;>
        simp [Trace.addCall, Trace.addPrompt, selectFree_append, h0]

/-- Fee prompt cancelled: the run ends with no signature. -/
theorem feeStage_cancel {env : DeployEnv} {yes : Bool} {net : String} {cfg : Config}
    {sk : String} {t : Trace} (hp : promptFirstValid env.feeInputs = none) :
    feeStage env yes net cfg sk t = ⟨.feeCancelled, t.addPrompt .feePrompt, none⟩ := by
  simp only [feeStage, hp]

/-- Fee prompt yielding the empty string: the run silently ends. -/
theorem feeStage_empty {env : DeployEnv} {yes : Bool} {net : String} {cfg : Config}
    {sk : String} {t : Trace} (hp : promptFirstValid env.feeInputs = some "") :
    feeStage env yes net cfg sk t = ⟨.feeAbandoned, t.addPrompt .feePrompt, none⟩ := by
  simp only [feeStage, hp]
  simp

/-- Fee prompt yielding a non-empty fee: continue with the derived fee
payer and the alias url (`?? DEFAULT_GRAPHQL`). -/
theorem feeStage_some {env : DeployEnv} {yes : Bool} {net : String} {cfg : Config}
    {sk f : String} {t : Trace}
    (hp : promptFirstValid env.feeInputs = some f) (hf : (f == "") = false) :
    feeStage env yes net cfg sk t
      = nonceStage env yes (((lookupNetwork cfg net).bind (fun nc => nc.url)).getD DEFAULT_GRAPHQL)
          sk (derivePublicKey sk) f (t.addPrompt .feePrompt) := by
  simp only [feeStage, hp, hf]
  simp

/-- Any signed payment leaving the fee stage carries the prompted fee with
nine zeros appended. -/
theorem feeStage_fee {env : DeployEnv} {yes : Bool} {net : String} {cfg : Config}
    {sk f : String} {t : Trace} {sp : SignedPayment}
    (hp : promptFirstValid env.feeInputs = some f)
    (h : (feeStage env yes net cfg sk t).signed = some sp) :
    sp.feePayer.fee = feeToNanomina f := by
  cases hf : f == "" with
  | true =>
    rw [show f = "" from by simpa using hf] at hp
    rw [feeStage_empty hp] at h
    simp at h
  | false =>
    rw [feeStage_some hp hf] at h
    exact nonceStage_fee h

/-- The fee stage writes no config. -/
theorem feeStage_writes {env : DeployEnv} {yes : Bool} {net : String} {cfg : Config}
    {sk : String} {t : Trace} :
    (feeStage env yes net cfg sk t).trace.configWrites = t.configWrites := by
  cases hp : promptFirstValid env.feeInputs with
  | none =>
    rw [feeStage_cancel hp]
    simp [Trace.addPrompt]
  | some f =>
    cases hf : f == "" with
    | true =>
      rw [show f = "" from by simpa using hf] at hp
      rw [feeStage_empty hp]
      simp [Trace.addPrompt]
    | false =>
      rw [feeStage_some hp hf, nonceStage_writes]
      simp [Trace.addPrompt]

/-- Bad confirmation input: the fee stage adds no submission. -/
theorem feeStage_countSubmits_bad {env : DeployEnv} {net : String} {cfg : Config}
    {sk : String} {t : Trace}
    (h : (jsToLowerCase env.confirmInput == "yes" || jsToLowerCase env.confirmInput == "y")
          = false) :
    countSubmits (feeStage env false net cfg sk t).trace.networkCalls
      = countSubmits t.networkCalls := by
  cases hp : promptFirstValid env.feeInputs with
  | none =>
    rw [feeStage_cancel hp]
    simp [Trace.addPrompt]
  | some f =>
    cases hf : f == "" with
    | true =>
      rw [show f = "" from by simpa using hf] at hp
      rw [feeStage_empty hp]
      simp [Trace.addPrompt]
    | false =>
      rw [feeStage_some hp hf, nonceStage_countSubmits_bad h]
      simp [Trace.addPrompt]

/-- The fee stage adds at most one submission call. -/
theorem feeStage_countSubmits_le {env : DeployEnv} {yes : Bool} {net : String} {cfg : Config}
    {sk : String} {t : Trace} :
    countSubmits (feeStage env yes net cfg sk t).trace.networkCalls
      ≤ countSubmits t.networkCalls + 1 := by
  cases hp : promptFirstValid env.feeInputs with
  | none =>
    rw [feeStage_cancel hp]
    simp [Trace.addPrompt]
  | some f =>
    cases hf : f == "" with
    | true =>
      rw [show f = "" from by simpa using hf] at hp
      rw [feeStage_empty hp]
      simp [Trace.addPrompt]
    | false =>
      rw [feeStage_some hp hf]
      calc countSubmits (nonceStage env yes
              (((lookupNetwork cfg net).bind (fun nc => nc.url)).getD DEFAULT_GRAPHQL)
              sk (derivePublicKey sk) f (t.addPrompt .feePrompt)).trace.networkCalls
          ≤ countSubmits (t.addPrompt .feePrompt).networkCalls + 1 :=
            nonceStage_countSubmits_le
        _ = countSubmits t.networkCalls + 1 := by simp [Trace.addPrompt]

/-- Bad confirmation input: a signed run through the fee stage aborts. -/
theorem feeStage_outcome_bad {env : DeployEnv} {net : String} {cfg : Config}
    {sk : String} {t : Trace} {sp : SignedPayment}
    (h : (jsToLowerCase env.confirmInput == "yes" || jsToLowerCase env.confirmInput == "y")
          = false)
    (hs : (feeStage env false net cfg sk t).signed = some sp) :
    (feeStage env false net cfg sk t).outcome = .aborted := by
  cases hp : promptFirstValid env.feeInputs with
  | none =>
    rw [feeStage_cancel hp] at hs
    simp at hs
  | some f =>
    cases hf : f == "" with
    | true =>
      rw [show f = "" from by simpa using hf] at hp
      rw [feeStage_empty hp] at hs
      simp at hs
    | false =>
      rw [feeStage_some hp hf] at hs ⊢
      exact nonceStage_outcome_bad h hs

/-- Affirmative confirmation: the fee stage never aborts. -/
theorem feeStage_ne_aborted_good {env : DeployEnv} {yes : Bool} {net : String} {cfg : Config}
    {sk : String} {t : Trace}
    (h : yes = true ∨
      (jsToLowerCase env.confirmInput == "yes" || jsToLowerCase env.confirmInput == "y") = true) :
    (feeStage env yes net cfg sk t).outcome ≠ .aborted := by
  cases hp : promptFirstValid env.feeInputs with
  | none =>
    rw [feeStage_cancel hp]
    simp
  | some f =>
    cases hf : f == "" with
    | true =>
      rw [show f = "" from by simpa using hf] at hp
      rw [feeStage_empty hp]
      simp
    | false =>
      rw [feeStage_some hp hf]
      exact nonceStage_ne_aborted_good h

/-- Affirmative confirmation: a signed run through the fee stage submits
exactly once. -/
theorem feeStage_countSubmits_good {env : DeployEnv} {yes : Bool} {net : String} {cfg : Config}
    {sk : String} {t : Trace} {sp : SignedPayment}
    (h : yes = true ∨
      (jsToLowerCase env.confirmInput == "yes" || jsToLowerCase env.confirmInput == "y") = true)
    (hs : (feeStage env yes net cfg sk t).signed = some sp) :
    countSubmits (feeStage env yes net cfg sk t).trace.networkCalls
      = countSubmits t.networkCalls + 1 := by
  cases hp : promptFirstValid env.feeInputs with
  | none =>
    rw [feeStage_cancel hp] at hs
    simp at hs
  | some f =>
    cases hf : f == "" with
    | true =>
      rw [show f = "" from by simpa using hf] at hp
      rw [feeStage_empty hp] at hs
      simp at hs
    | false =>
      rw [feeStage_some hp hf] at hs ⊢
      rw [nonceStage_countSubmits_good h hs]
      simp [Trace.addPrompt]

/-- The fee stage never shows the contract-selection prompt. -/
theorem feeStage_selectFree {env : DeployEnv} {yes : Bool} {net : String} {cfg : Config}
    {sk : String} {t : Trace} (h0 : selectFree t.prompts = true) :
    selectFree (feeStage env yes net cfg sk t).trace.prompts = true := by
  cases hp : promptFirstValid env.feeInputs with
  | none =>
    rw [feeStage_cancel hp]
    simp [Trace.addPrompt, selectFree_append, h0]
  | some f =>
    cases hf : f == "" with
    | true =>
      rw [show f = "" from by simpa using hf] at hp
      rw [feeStage_empty hp]
      simp [Trace.addPrompt, selectFree_append, h0]
    | false =>
      rw [feeStage_some hp hf]
      apply nonceStage_selectFree
      simp [Trace.addPrompt, selectFree_append, h0]

/-- Module import failure ends the run. -/
theorem importStage_importFail {env : DeployEnv} {yes : Bool} {net : String} {cfg : Config}
    {cn : String} {t : Trace} (h1 : env.importOk = false) :
    importStage env yes net cfg cn t = ⟨.importFailed, t.addLog (msgImportFailed cn), none⟩ := by
  simp only [importStage, h1]
  simp

/-- Missing named export ends the run. -/
theorem importStage_exportFail {env : DeployEnv} {yes : Bool} {net : String} {cfg : Config}
    {cn : String} {t : Trace} (h1 : env.importOk = true) (h2 : env.exportPresent = false) :
    importStage env yes net cfg cn t = ⟨.exportMissing, t.addLog (msgExportMissing cn), none⟩ := by
  simp only [importStage, h1, h2]
  simp

/-- Unreadable key file `keys/NETWORK.json` ends the run. -/
theorem importStage_keyFail {env : DeployEnv} {yes : Bool} {net : String} {cfg : Config}
    {cn : String} {t : Trace} (h1 : env.importOk = true) (h2 : env.exportPresent = true)
    (h3 : lookupKeyFile env.keyFiles ("keys/" ++ net ++ ".json") = none) :
    importStage env yes net cfg cn t = ⟨.keyReadFailed, t.addLog msgKeyReadFailed, none⟩ := by
  simp only [importStage, h1, h2, h3]
  simp

/-- With the import, export and key file in place, the run continues with
the `privateKey` field of `keys/NETWORK.json`. -/
theorem importStage_ok {env : DeployEnv} {yes : Bool} {net : String} {cfg : Config}
    {cn : String} {t : Trace} {kf : KeyFile} (h1 : env.importOk = true)
    (h2 : env.exportPresent = true)
    (h3 : lookupKeyFile env.keyFiles ("keys/" ++ net ++ ".json") = some kf) :
    importStage env yes net cfg cn t = feeStage env yes net cfg kf.privateKey t := by
  simp only [importStage, h1, h2, h3]
  simp

/-- Any signed payment leaving the import stage carries the prompted fee
with nine zeros appended. -/
theorem importStage_fee {env : DeployEnv} {yes : Bool} {net : String} {cfg : Config}
    {cn f : String} {t : Trace} {sp : SignedPayment}
    (hp : promptFirstValid env.feeInputs = some f)
    (h : (importStage env yes net cfg cn t).signed = some sp) :
    sp.feePayer.fee = feeToNanomina f := by
  cases h1 : env.importOk with
  | false =>
    rw [importStage_importFail h1] at h
    simp at h
  | true =>
    cases h2 : env.exportPresent with
    | false =>
      rw [importStage_exportFail h1 h2] at h
      simp at h
    | true =>
      cases h3 : lookupKeyFile env.keyFiles ("keys/" ++ net ++ ".json") with
      | none =>
        rw [importStage_keyFail h1 h2 h3] at h
        simp at h
      | some kf =>
        rw [importStage_ok h1 h2 h3] at h
        exact feeStage_fee hp h

/-- The import stage writes no config. -/
theorem importStage_writes {env : DeployEnv} {yes : Bool} {net : String} {cfg : Config}
    {cn : String} {t : Trace} :
    (importStage env yes net cfg cn t).trace.configWrites = t.configWrites := by
  cases h1 : env.importOk with
  | false =>
    rw [importStage_importFail h1]
    simp [Trace.addLog]
  | true =>
    cases h2 : env.exportPresent with
    | false =>
      rw [importStage_exportFail h1 h2]
      simp [Trace.addLog]
    | true =>
      cases h3 : lookupKeyFile env.keyFiles ("keys/" ++ net ++ ".json") with
      | none =>
        rw [importStage_keyFail h1 h2 h3]
        simp [Trace.addLog]
      | some kf =>
        rw [importStage_ok h1 h2 h3]
        exact feeStage_writes

/-- Bad confirmation input: the import stage adds no submission. -/
theorem importStage_countSubmits_bad {env : DeployEnv} {net : String} {cfg : Config}
    {cn : String} {t : Trace}
    (h : (jsToLowerCase env.confirmInput == "yes" || jsToLowerCase env.confirmInput == "y")
          = false) :
    countSubmits (importStage env false net cfg cn t).trace.networkCalls
      = countSubmits t.networkCalls := by
  cases h1 : env.importOk with
  | false =>
    rw [importStage_importFail h1]
    simp [Trace.addLog]
  | true =>
    cases h2 : env.exportPresent with
    | false =>
      rw [importStage_exportFail h1 h2]
      simp [Trace.addLog]
    | true =>
      cases h3 : lookupKeyFile env.keyFiles ("keys/" ++ net ++ ".json") with
      | none =>
        rw [importStage_keyFail h1 h2 h3]
        simp [Trace.addLog]
      | some kf =>
        rw [importStage_ok h1 h2 h3]
        exact feeStage_countSubmits_bad h

/-- The import stage adds at most one submission call. -/
theorem importStage_countSubmits_le {env : DeployEnv} {yes : Bool} {net : String} {cfg : Config}
    {cn : String} {t : Trace} :
    countSubmits (importStage env yes net cfg cn t).trace.networkCalls
      ≤ countSubmits t.networkCalls + 1 := by
  cases h1 : env.importOk with
  | false =>
    rw [importStage_importFail h1]
    simp [Trace.addLog]
  | true =>
    cases h2 : env.exportPresent with
    | false =>
      rw [importStage_exportFail h1 h2]
      simp [Trace.addLog]
    | true =>
      cases h3 : lookupKeyFile env.keyFiles ("keys/" ++ net ++ ".json") with
      | none =>
        rw [importStage_keyFail h1 h2 h3]
        simp [Trace.addLog]
      | some kf =>
        rw [importStage_ok h1 h2 h3]
        exact feeStage_countSubmits_le

/-- Bad confirmation input: a signed run through the import stage aborts. -/
theorem importStage_outcome_bad {env : DeployEnv} {net : String} {cfg : Config}
    {cn : String} {t : Trace} {sp : SignedPayment}
    (h : (jsToLowerCase env.confirmInput == "yes" || jsToLowerCase env.confirmInput == "y")
          = false)
    (hs : (importStage env false net cfg cn t).signed = some sp) :
    (importStage env false net cfg cn t).outcome = .aborted := by
  cases h1 : env.importOk with
  | false =>
    rw [importStage_importFail h1] at hs
    simp at hs
  | true =>
    cases h2 : env.exportPresent with
    | false =>
      rw [importStage_exportFail h1 h2] at hs
      simp at hs
    | true =>
      cases h3 : lookupKeyFile env.keyFiles ("keys/" ++ net ++ ".json") with
      | none =>
        rw [importStage_keyFail h1 h2 h3] at hs
        simp at hs
      | some kf =>
        rw [importStage_ok h1 h2 h3] at hs ⊢
        exact feeStage_outcome_bad h hs

/-- Affirmative confirmation: the import stage never aborts. -/
theorem importStage_ne_aborted_good {env : DeployEnv} {yes : Bool} {net : String}
    {cfg : Config} {cn : String} {t : Trace}
    (h : yes = true ∨
      (jsToLowerCase env.confirmInput == "yes" || jsToLowerCase env.confirmInput == "y") = true) :
    (importStage env yes net cfg cn t).outcome ≠ .aborted := by
  cases h1 : env.importOk with
  | false =>
    rw [importStage_importFail h1]
    simp
  | true =>
    cases h2 : env.exportPresent with
    | false =>
      rw [importStage_exportFail h1 h2]
      simp
    | true =>
      cases h3 : lookupKeyFile env.keyFiles ("keys/" ++ net ++ ".json") with
      | none =>
        rw [importStage_keyFail h1 h2 h3]
        simp
      | some kf =>
        rw [importStage_ok h1 h2 h3]
        exact feeStage_ne_aborted_good h

/-- Affirmative confirmation: a signed run through the import stage
submits exactly once. -/
theorem importStage_countSubmits_good {env : DeployEnv} {yes : Bool} {net : String}
    {cfg : Config} {cn : String} {t : Trace} {sp : SignedPayment}
    (h : yes = true ∨
      (jsToLowerCase env.confirmInput == "yes" || jsToLowerCase env.confirmInput == "y") = true)
    (hs : (importStage env yes net cfg cn t).signed = some sp) :
    countSubmits (importStage env yes net cfg cn t).trace.networkCalls
      = countSubmits t.networkCalls + 1 := by
  cases h1 : env.importOk with
  | false =>
    rw [importStage_importFail h1] at hs
    simp at hs
  | true =>
    cases h2 : env.exportPresent with
    | false =>
      rw [importStage_exportFail h1 h2] at hs
      simp at hs
    | true =>
      cases h3 : lookupKeyFile env.keyFiles ("keys/" ++ net ++ ".json") with
      | none =>
        rw [importStage_keyFail h1 h2 h3] at hs
        simp at hs
      | some kf =>
        rw [importStage_ok h1 h2 h3] at hs ⊢
        exact feeStage_countSubmits_good h hs

/-- The import stage never shows the contract-selection prompt. -/
theorem importStage_selectFree {env : DeployEnv} {yes : Bool} {net : String} {cfg : Config}
    {cn : String} {t : Trace} (h0 : selectFree t.prompts = true) :
    selectFree (importStage env yes net cfg cn t).trace.prompts = true := by
  cases h1 : env.importOk with
  | false =>
    rw [importStage_importFail h1]
    simpa [Trace.addLog] using h0
  | true =>
    cases h2 : env.exportPresent with
    | false =>
      rw [importStage_exportFail h1 h2]
      simpa [Trace.addLog] using h0
    | true =>
      cases h3 : lookupKeyFile env.keyFiles ("keys/" ++ net ++ ".json") with
      | none =>
        rw [importStage_keyFail h1 h2 h3]
        simpa [Trace.addLog] using h0
      | some kf =>
        rw [importStage_ok h1 h2 h3]
        exact feeStage_selectFree h0

/-- Stored contract equal to the resolved one: no rewrite. -/
theorem persistStage_same {env : DeployEnv} {yes : Bool} {net : String} {cfg : Config}
    {cn : String} {t : Trace} (h : (cfgSmartContract cfg net == some cn) = true) :
    persistStage env yes net cfg cn t = importStage env yes net cfg cn t := by
  simp only [persistStage, h]
  simp

/-- Stored contract differing from the resolved one: rewrite config.json. -/
theorem persistStage_diff {env : DeployEnv} {yes : Bool} {net : String} {cfg : Config}
    {cn : String} {t : Trace} (h : (cfgSmartContract cfg net == some cn) = false) :
    persistStage env yes net cfg cn t
      = importStage env yes net (setSmartContract cfg net cn) cn
          ((t.addWrite (setSmartContract cfg net cn)).addLog msgConfigUpdated) := by
  simp only [persistStage, h]
  simp

/-- Any signed payment leaving the persist stage carries the prompted fee
with nine zeros appended. -/
theorem persistStage_fee {env : DeployEnv} {yes : Bool} {net : String} {cfg : Config}
    {cn f : String} {t : Trace} {sp : SignedPayment}
    (hp : promptFirstValid env.feeInputs = some f)
    (h : (persistStage env yes net cfg cn t).signed = some sp) :
    sp.feePayer.fee = feeToNanomina f := by
  cases hw : cfgSmartContract cfg net == some cn with
  | true =>
    rw [persistStage_same hw] at h
    exact importStage_fee hp h
  | false =>
    rw [persistStage_diff hw] at h
    exact importStage_fee hp h

/-- Config writes of the persist stage: none when the stored name already
equals the resolved one, exactly the updated config otherwise. -/
theorem persistStage_writes_same {env : DeployEnv} {yes : Bool} {net : String} {cfg : Config}
    {cn : String} {t : Trace} (h : (cfgSmartContract cfg net == some cn) = true) :
    (persistStage env yes net cfg cn t).trace.configWrites = t.configWrites := by
  rw [persistStage_same h]
  exact importStage_writes

/-- See `persistStage_writes_same`. -/
theorem persistStage_writes_diff {env : DeployEnv} {yes : Bool} {net : String} {cfg : Config}
    {cn : String} {t : Trace} (h : (cfgSmartContract cfg net == some cn) = false) :
    (persistStage env yes net cfg cn t).trace.configWrites
      = t.configWrites ++ [setSmartContract cfg net cn] := by
  rw [persistStage_diff h, importStage_writes]
  simp [Trace.addWrite, Trace.addLog]

/-- Bad confirmation input: the persist stage adds no submission. -/
theorem persistStage_countSubmits_bad {env : DeployEnv} {net : String} {cfg : Config}
    {cn : String} {t : Trace}
    (h : (jsToLowerCase env.confirmInput == "yes" || jsToLowerCase env.confirmInput == "y")
          = false) :
    countSubmits (persistStage env false net cfg cn t).trace.networkCalls
      = countSubmits t.networkCalls := by
  cases hw : cfgSmartContract cfg net == some cn with
  | true =>
    rw [persistStage_same hw]
    exact importStage_countSubmits_bad h
  | false =>
    rw [persistStage_diff hw]
    rw [importStage_countSubmits_bad h]
    simp [Trace.addWrite, Trace.addLog]

/-- The persist stage adds at most one submission call. -/
theorem persistStage_countSubmits_le {env : DeployEnv} {yes : Bool} {net : String}
    {cfg : Config} {cn : String} {t : Trace} :
    countSubmits (persistStage env yes net cfg cn t).trace.networkCalls
      ≤ countSubmits t.networkCalls + 1 := by
  cases hw : cfgSmartContract cfg net == some cn with
  | true =>
    rw [persistStage_same hw]
    exact importStage_countSubmits_le
  | false =>
    rw [persistStage_diff hw]
    calc countSubmits (importStage env yes net (setSmartContract cfg net cn) cn
            ((t.addWrite (setSmartContract cfg net cn)).addLog
              msgConfigUpdated)).trace.networkCalls
        ≤ countSubmits ((t.addWrite (setSmartContract cfg net cn)).addLog
            msgConfigUpdated).networkCalls + 1 := importStage_countSubmits_le
      _ = countSubmits t.networkCalls + 1 := by simp [Trace.addWrite, Trace.addLog]

/-- Bad confirmation input: a signed run through the persist stage aborts. -/
theorem persistStage_outcome_bad {env : DeployEnv} {net : String} {cfg : Config}
    {cn : String} {t : Trace} {sp : SignedPayment}
    (h : (jsToLowerCase env.confirmInput == "yes" || jsToLowerCase env.confirmInput == "y")
          = false)
    (hs : (persistStage env false net cfg cn t).signed = some sp) :
    (persistStage env false net cfg cn t).outcome = .aborted := by
  cases hw : cfgSmartContract cfg net == some cn with
  | true =>
    rw [persistStage_same hw] at hs ⊢
    exact importStage_outcome_bad h hs
  | false =>
    rw [persistStage_diff hw] at hs ⊢
    exact importStage_outcome_bad h hs

/-- Affirmative confirmation: the persist stage never aborts. -/
theorem persistStage_ne_aborted_good {env : DeployEnv} {yes : Bool} {net : String}
    {cfg : Config} {cn : String} {t : Trace}
    (h : yes = true ∨
      (jsToLowerCase env.confirmInput == "yes" || jsToLowerCase env.confirmInput == "y") = true) :
    (persistStage env yes net cfg cn t).outcome ≠ .aborted := by
  cases hw : cfgSmartContract cfg net == some cn with
  | true =>
    rw [persistStage_same hw]
    exact importStage_ne_aborted_good h
  | false =>
    rw [persistStage_diff hw]
    exact importStage_ne_aborted_good h

/-- Affirmative confirmation: a signed run through the persist stage
submits exactly once. -/
theorem persistStage_countSubmits_good {env : DeployEnv} {yes : Bool} {net : String}
    {cfg : Config} {cn : String} {t : Trace} {sp : SignedPayment}
    (h : yes = true ∨
      (jsToLowerCase env.confirmInput == "yes" || jsToLowerCase env.confirmInput == "y") = true)
    (hs : (persistStage env yes net cfg cn t).signed = some sp) :
    countSubmits (persistStage env yes net cfg cn t).trace.networkCalls
      = countSubmits t.networkCalls + 1 := by
  cases hw : cfgSmartContract cfg net == some cn with
  | true =>
    rw [persistStage_same hw] at hs ⊢
    exact importStage_countSubmits_good h hs
  | false =>
    rw [persistStage_diff hw] at hs ⊢
    rw [importStage_countSubmits_good h hs]
    simp [Trace.addWrite, Trace.addLog]

/-- The persist stage never shows the contract-selection prompt. -/
theorem persistStage_selectFree {env : DeployEnv} {yes : Bool} {net : String} {cfg : Config}
    {cn : String} {t : Trace} (h0 : selectFree t.prompts = true) :
    selectFree (persistStage env yes net cfg cn t).trace.prompts = true := by
  cases hw : cfgSmartContract cfg net == some cn with
  | true =>
    rw [persistStage_same hw]
    exact importStage_selectFree h0
  | false =>
    rw [persistStage_diff hw]
    apply importStage_selectFree
    simpa [Trace.addWrite, Trace.addLog] using h0

/-- Falsy resolution, selection cancelled: the run ends. -/
theorem resolveStage_cancel {env : DeployEnv} {yes : Bool} {net : String} {cfg : Config}
    {t : Trace} (h : chooseSmartContract cfg env.build net = "")
    (hs : env.selectInput = none) :
    resolveStage env yes net cfg t
      = ⟨.selectionCancelled, t.addPrompt (.selectContract env.build.smartContracts), none⟩ := by
  simp only [resolveStage, h, hs]
  simp

/-- Falsy resolution, operator selection: continue with the selection. -/
theorem resolveStage_selected {env : DeployEnv} {yes : Bool} {net : String} {cfg : Config}
    {sel : String} {t : Trace} (h : chooseSmartContract cfg env.build net = "")
    (hs : env.selectInput = some sel) :
    resolveStage env yes net cfg t
      = persistStage env yes net cfg sel
          (t.addPrompt (.selectContract env.build.smartContracts)) := by
  simp only [resolveStage, h, hs]
  simp

/-- Truthy resolution: no selection prompt; the informational line depends
on whether the choice came from config.json. -/
theorem resolveStage_direct {env : DeployEnv} {yes : Bool} {net : String} {cfg : Config}
    {t : Trace} (h : (chooseSmartContract cfg env.build net == "") = false) :
    resolveStage env yes net cfg t
      = persistStage env yes net cfg (chooseSmartContract cfg env.build net)
          (if truthyStr (cfgSmartContract cfg net) then
            t.addLog (msgChoseConfigured (chooseSmartContract cfg env.build net))
          else
            t.addLog (msgChoseOnly (env.build.smartContracts.headD ""))) := by
  simp only [resolveStage, h]
  simp

/-- A non-truthy stored contract name never `==`-matches a non-empty
resolved name. -/
theorem not_truthy_beq_some_false {o : Option String} {c : String}
    (h : truthyStr o = false) (hc : (c == "") = false) : (o == some c) = false := by
  cases o with
  | none => rfl
  | some s =>
    have hs : s = "" := by simpa [truthyStr] using h
    subst hs
    have : ¬("" = c) := by
      intro he
      rw [← he] at hc
      simp at hc
    simpa using this

/-- Prompts only accumulate through the submit stage. -/
theorem submitStage_prompts_append {env : DeployEnv} {ep : String} {s : SignedPayment}
    {t : Trace} : ∃ d, (submitStage env ep s t).trace.prompts = t.prompts ++ d :=
  ⟨[], by rw [submitStage_prompts]; simp⟩

/-- Prompts only accumulate through the gate. -/
theorem confirmStage_prompts_append {env : DeployEnv} {yes : Bool} {ep : String}
    {s : SignedPayment} {t : Trace} :
    ∃ d, (confirmStage env yes ep s t).trace.prompts = t.prompts ++ d := by
  rcases @confirmStage_prompts env yes ep s t with h | h
  · exact ⟨[], by rw [h]; simp⟩
  · exact ⟨[.confirmPrompt], h⟩

/-- Prompts only accumulate through signing. -/
theorem signStage_prompts_append {env : DeployEnv} {yes : Bool} {ep sk fpk fee nonce : String}
    {t : Trace} :
    ∃ d, (signStage env yes ep sk fpk fee nonce t).trace.prompts = t.prompts ++ d := by
  simp only [signStage, signTransaction]
  exact confirmStage_prompts_append

/-- Prompts only accumulate through the nonce stage. -/
theorem nonceStage_prompts_append {env : DeployEnv} {yes : Bool} {ep sk fpk fee : String}
    {t : Trace} :
    ∃ d, (nonceStage env yes ep sk fpk fee t).trace.prompts = t.prompts ++ d := by
  cases ht : truthyStr (gqlNonce (sendGraphQL env.accountFetch)) with
  | true =>
    rw [nonceStage_truthy ht]
    obtain ⟨d, hd⟩ := @signStage_prompts_append env yes ep sk fpk fee
      ((gqlNonce (sendGraphQL env.accountFetch)).getD "")
      (t.addCall (.accountQuery ep fpk))
    exact ⟨d, by rw [hd]; simp [Trace.addCall]⟩
  | false =>
    cases hp : promptFirstValid env.nonceInputs with
    | none =>
      rw [nonceStage_fallback_none ht hp]
      exact ⟨[.noncePrompt], by simp [Trace.addCall, Trace.addPrompt]⟩
    | some nv =>
      rw [nonceStage_fallback_some ht hp]
      obtain ⟨d, hd⟩ := @signStage_prompts_append env yes ep sk fpk fee nv
        ((t.addCall (.accountQuery ep fpk)).addPrompt .noncePrompt)
      exact ⟨.noncePrompt :: d, by rw [hd]; simp [Trace.addCall, Trace.addPrompt]⟩

/-- Prompts only accumulate through the fee stage. -/
theorem feeStage_prompts_append {env : DeployEnv} {yes : Bool} {net : String} {cfg : Config}
    {sk : String} {t : Trace} :
    ∃ d, (feeStage env yes net cfg sk t).trace.prompts = t.prompts ++ d := by
  cases hp : promptFirstValid env.feeInputs with
  | none =>
    rw [feeStage_cancel hp]
    exact ⟨[.feePrompt], by simp [Trace.addPrompt]⟩
  | some f =>
    cases hf : f == "" with
    | true =>
      rw [show f = "" from by simpa using hf] at hp
      rw [feeStage_empty hp]
      exact ⟨[.feePrompt], by simp [Trace.addPrompt]⟩
    | false =>
      rw [feeStage_some hp hf]
      obtain ⟨d, hd⟩ := @nonceStage_prompts_append env yes
        (((lookupNetwork cfg net).bind (fun nc => nc.url)).getD DEFAULT_GRAPHQL)
        sk (derivePublicKey sk) f (t.addPrompt .feePrompt)
      exact ⟨.feePrompt :: d, by rw [hd]; simp [Trace.addPrompt]⟩

/-- Prompts only accumulate through the import stage. -/
theorem importStage_prompts_append {env : DeployEnv} {yes : Bool} {net : String} {cfg : Config}
    {cn : String} {t : Trace} :
    ∃ d, (importStage env yes net cfg cn t).trace.prompts = t.prompts ++ d := by
  cases h1 : env.importOk with
  | false =>
    rw [importStage_importFail h1]
    exact ⟨[], by simp [Trace.addLog]⟩
  | true =>
    cases h2 : env.exportPresent with
    | false =>
      rw [importStage_exportFail h1 h2]
      exact ⟨[], by simp [Trace.addLog]⟩
    | true =>
      cases h3 : lookupKeyFile env.keyFiles ("keys/" ++ net ++ ".json") with
      | none =>
        rw [importStage_keyFail h1 h2 h3]
        exact ⟨[], by simp [Trace.addLog]⟩
      | some kf =>
        rw [importStage_ok h1 h2 h3]
        exact feeStage_prompts_append

/-- Prompts only accumulate through the persist stage. -/
theorem persistStage_prompts_append {env : DeployEnv} {yes : Bool} {net : String}
    {cfg : Config} {cn : String} {t : Trace} :
    ∃ d, (persistStage env yes net cfg cn t).trace.prompts = t.prompts ++ d := by
  cases hw : cfgSmartContract cfg net == some cn with
  | true =>
    rw [persistStage_same hw]
    exact importStage_prompts_append
  | false =>
    rw [persistStage_diff hw]
    obtain ⟨d, hd⟩ := @importStage_prompts_append env yes net
      (setSmartContract cfg net cn) cn
      ((t.addWrite (setSmartContract cfg net cn)).addLog msgConfigUpdated)
    exact ⟨d, by rw [hd]; simp [Trace.addWrite, Trace.addLog]⟩

/-- A falsy resolution always shows the selection prompt over the
discovered contract list. -/
theorem resolveStage_selectPrompt {env : DeployEnv} {yes : Bool} {net : String} {cfg : Config}
    {t : Trace} (h : chooseSmartContract cfg env.build net = "") :
    PromptEvent.selectContract env.build.smartContracts
      ∈ (resolveStage env yes net cfg t).trace.prompts := by
  cases hs : env.selectInput with
  | none =>
    rw [resolveStage_cancel h hs]
    simp [Trace.addPrompt]
  | some sel =>
    rw [resolveStage_selected h hs]
    obtain ⟨d, hd⟩ := @persistStage_prompts_append env yes net
      cfg sel (t.addPrompt (.selectContract env.build.smartContracts))
    rw [hd]
    simp [Trace.addPrompt]

/-- Any signed payment leaving contract resolution carries the prompted
fee with nine zeros appended. -/
theorem resolveStage_fee {env : DeployEnv} {yes : Bool} {net : String} {cfg : Config}
    {f : String} {t : Trace} {sp : SignedPayment}
    (hp : promptFirstValid env.feeInputs = some f)
    (h : (resolveStage env yes net cfg t).signed = some sp) :
    sp.feePayer.fee = feeToNanomina f := by
  cases hch : chooseSmartContract cfg env.build net == "" with
  | true =>
    have hch' : chooseSmartContract cfg env.build net = "" := by simpa using hch
    cases hs : env.selectInput with
    | none =>
      rw [resolveStage_cancel hch' hs] at h
      simp at h
    | some sel =>
      rw [resolveStage_selected hch' hs] at h
      exact persistStage_fee hp h
  | false =>
    rw [resolveStage_direct hch] at h
    exact persistStage_fee hp h

/-- Bad confirmation input: resolution adds no submission. -/
theorem resolveStage_countSubmits_bad {env : DeployEnv} {net : String} {cfg : Config}
    {t : Trace}
    (h : (jsToLowerCase env.confirmInput == "yes" || jsToLowerCase env.confirmInput == "y")
          = false) :
    countSubmits (resolveStage env false net cfg t).trace.networkCalls
      = countSubmits t.networkCalls := by
  cases hch : chooseSmartContract cfg env.build net == "" with
  | true =>
    have hch' : chooseSmartContract cfg env.build net = "" := by simpa using hch
    cases hs : env.selectInput with
    | none =>
      rw [resolveStage_cancel hch' hs]
      simp [Trace.addPrompt]
    | some sel =>
      rw [resolveStage_selected hch' hs, persistStage_countSubmits_bad h]
      simp [Trace.addPrompt]
  | false =>
    rw [resolveStage_direct hch, persistStage_countSubmits_bad h]
    split <;> simp [Trace.addLog]

/-- Resolution adds at most one submission call. -/
theorem resolveStage_countSubmits_le {env : DeployEnv} {yes : Bool} {net : String}
    {cfg : Config} {t : Trace} :
    countSubmits (resolveStage env yes net cfg t).trace.networkCalls
      ≤ countSubmits t.networkCalls + 1 := by
  cases hch : chooseSmartContract cfg env.build net == "" with
  | true =>
    have hch' : chooseSmartContract cfg env.build net = "" := by simpa using hch
    cases hs : env.selectInput with
    | none =>
      rw [resolveStage_cancel hch' hs]
      simp [Trace.addPrompt]
    | some sel =>
      rw [resolveStage_selected hch' hs]
      calc countSubmits (persistStage env yes net cfg sel
              (t.addPrompt (.selectContract env.build.smartContracts))).trace.networkCalls
          ≤ countSubmits (t.addPrompt
              (.selectContract env.build.smartContracts)).networkCalls + 1 :=
            persistStage_countSubmits_le
        _ = countSubmits t.networkCalls + 1 := by simp [Trace.addPrompt]
  | false =>
    rw [resolveStage_direct hch]
    split
    · calc countSubmits (persistStage env yes net cfg (chooseSmartContract cfg env.build net)
              (t.addLog
                (msgChoseConfigured (chooseSmartContract cfg env.build net)))).trace.networkCalls
          ≤ countSubmits (t.addLog (msgChoseConfigured
              (chooseSmartContract cfg env.build net))).networkCalls + 1 :=
            persistStage_countSubmits_le
        _ = countSubmits t.networkCalls + 1 := by simp [Trace.addLog]
    · calc countSubmits (persistStage env yes net cfg (chooseSmartContract cfg env.build net)
              (t.addLog (msgChoseOnly (env.build.smartContracts.headD "")))).trace.networkCalls
          ≤ countSubmits (t.addLog (msgChoseOnly
              (env.build.smartContracts.headD ""))).networkCalls + 1 :=
            persistStage_countSubmits_le
        _ = countSubmits t.networkCalls + 1 := by simp [Trace.addLog]

/-- Bad confirmation input: a signed run through resolution aborts. -/
theorem resolveStage_outcome_bad {env : DeployEnv} {net : String} {cfg : Config}
    {t : Trace} {sp : SignedPayment}
    (h : (jsToLowerCase env.confirmInput == "yes" || jsToLowerCase env.confirmInput == "y")
          = false)
    (hs : (resolveStage env false net cfg t).signed = some sp) :
    (resolveStage env false net cfg t).outcome = .aborted := by
  cases hch : chooseSmartContract cfg env.build net == "" with
  | true =>
    have hch' : chooseSmartContract cfg env.build net = "" := by simpa using hch
    cases hsel : env.selectInput with
    | none =>
      rw [resolveStage_cancel hch' hsel] at hs
      simp at hs
    | some sel =>
      rw [resolveStage_selected hch' hsel] at hs ⊢
      exact persistStage_outcome_bad h hs
  | false =>
    rw [resolveStage_direct hch] at hs ⊢
    exact persistStage_outcome_bad h hs

/-- Affirmative confirmation: resolution never aborts. -/
theorem resolveStage_ne_aborted_good {env : DeployEnv} {yes : Bool} {net : String}
    {cfg : Config} {t : Trace}
    (h : yes = true ∨
      (jsToLowerCase env.confirmInput == "yes" || jsToLowerCase env.confirmInput == "y") = true) :
    (resolveStage env yes net cfg t).outcome ≠ .aborted := by
  cases hch : chooseSmartContract cfg env.build net == "" with
  | true =>
    have hch' : chooseSmartContract cfg env.build net = "" := by simpa using hch
    cases hsel : env.selectInput with
    | none =>
      rw [resolveStage_cancel hch' hsel]
      simp
    | some sel =>
      rw [resolveStage_selected hch' hsel]
      exact persistStage_ne_aborted_good h
  | false =>
    rw [resolveStage_direct hch]
    exact persistStage_ne_aborted_good h

/-- Affirmative confirmation: a signed run through resolution submits
exactly once. -/
theorem resolveStage_countSubmits_good {env : DeployEnv} {yes : Bool} {net : String}
    {cfg : Config} {t : Trace} {sp : SignedPayment}
    (h : yes = true ∨
      (jsToLowerCase env.confirmInput == "yes" || jsToLowerCase env.confirmInput == "y") = true)
    (hs : (resolveStage env yes net cfg t).signed = some sp) :
    countSubmits (resolveStage env yes net cfg t).trace.networkCalls
      = countSubmits t.networkCalls + 1 := by
  cases hch : chooseSmartContract cfg env.build net == "" with
  | true =>
    have hch' : chooseSmartContract cfg env.build net = "" := by simpa using hch
    cases hsel : env.selectInput with
    | none =>
      rw [resolveStage_cancel hch' hsel] at hs
      simp at hs
    | some sel =>
      rw [resolveStage_selected hch' hsel] at hs ⊢
      rw [persistStage_countSubmits_good h hs]
      simp [Trace.addPrompt]
  | false =>
    rw [resolveStage_direct hch] at hs ⊢
    rw [persistStage_countSubmits_good h hs]
    revert hs
    split <;> intro hs <;> simp [Trace.addLog]

/-- config.json absent: deploy stops at the first step. -/
theorem deploy_enoent {env : DeployEnv} {net0 : String} {yes : Bool}
    (hc : env.configRead = .enoent) :
    deploy env net0 yes = ⟨.configNotFound, Trace.empty.addLog msgConfigNotFound, none⟩ := by
  simp only [deploy, hc]

/-- config.json unreadable: deploy stops at the first step. -/
theorem deploy_unreadable {env : DeployEnv} {net0 : String} {yes : Bool}
    (hc : env.configRead = .unreadable) :
    deploy env net0 yes = ⟨.configUnreadable, Trace.empty.addLog msgConfigUnreadable, none⟩ := by
  simp only [deploy, hc]

/-- Alias missing from config.json: deploy stops before the build. -/
theorem deploy_noalias {env : DeployEnv} {net0 : String} {yes : Bool} {cfg : Config}
    (hc : env.configRead = .ok cfg)
    (hl : lookupNetwork cfg (jsToLowerCase net0) = none) :
    deploy env net0 yes
      = ⟨.networkNotFound,
          (Trace.empty.addLog msgNetworkNotFound1).addLog msgNetworkNotFound2, none⟩ := by
  simp only [deploy, hc, hl]

/-- Alias present but url falsy: deploy stops before the build. -/
theorem deploy_nourl {env : DeployEnv} {net0 : String} {yes : Bool} {cfg : Config}
    {nc : NetworkCfg} (hc : env.configRead = .ok cfg)
    (hl : lookupNetwork cfg (jsToLowerCase net0) = some nc)
    (hu : truthyStr nc.url = false) :
    deploy env net0 yes
      = ⟨.urlMissing, (Trace.empty.addLog msgUrlMissing1).addLog msgUrlMissing2, none⟩ := by
  simp only [deploy, hc, hl, hu]
  simp

/-- Build failure ends the run before resolution. -/
theorem deploy_nobuild {env : DeployEnv} {net0 : String} {yes : Bool} {cfg : Config}
    {nc : NetworkCfg} (hc : env.configRead = .ok cfg)
    (hl : lookupNetwork cfg (jsToLowerCase net0) = some nc)
    (hu : truthyStr nc.url = true) (hb : env.buildOk = false) :
    deploy env net0 yes = ⟨.buildFailed, Trace.empty, none⟩ := by
  simp only [deploy, hc, hl, hu, hb]
  simp

/-- With config, alias, url and build in place, deploy runs the pipeline
from contract resolution on the lowercased alias. -/
theorem deploy_run {env : DeployEnv} {net0 : String} {yes : Bool} {cfg : Config}
    {nc : NetworkCfg} (hc : env.configRead = .ok cfg)
    (hl : lookupNetwork cfg (jsToLowerCase net0) = some nc)
    (hu : truthyStr nc.url = true) (hb : env.buildOk = true) :
    deploy env net0 yes = resolveStage env yes (jsToLowerCase net0) cfg Trace.empty := by
  simp only [deploy, hc, hl, hu, hb]
  simp

/-- Any signed payment of a deploy run carries the prompted fee with nine
zeros appended. -/
theorem deploy_fee {env : DeployEnv} {net0 : String} {yes : Bool} {f : String}
    {sp : SignedPayment} (hp : promptFirstValid env.feeInputs = some f)
    (h : (deploy env net0 yes).signed = some sp) :
    sp.feePayer.fee = feeToNanomina f := by
  cases hc : env.configRead with
  | enoent =>
    rw [deploy_enoent hc] at h
    simp at h
  | unreadable =>
    rw [deploy_unreadable hc] at h
    simp at h
  | ok cfg =>
    cases hl : lookupNetwork cfg (jsToLowerCase net0) with
    | none =>
      rw [deploy_noalias hc hl] at h
      simp at h
    | some nc =>
      cases hu : truthyStr nc.url with
      | false =>
        rw [deploy_nourl hc hl hu] at h
        simp at h
      | true =>
        cases hb : env.buildOk with
        | false =>
          rw [deploy_nobuild hc hl hu hb] at h
          simp at h
        | true =>
          rw [deploy_run hc hl hu hb] at h
          exact resolveStage_fee hp h

/-- Bad interactive confirmation input: a deploy run issues no submission
call at all. -/
theorem deploy_countSubmits_bad {env : DeployEnv} {net0 : String}
    (h : (jsToLowerCase env.confirmInput == "yes" || jsToLowerCase env.confirmInput == "y")
          = false) :
    countSubmits (deploy env net0 false).trace.networkCalls = 0 := by
  cases hc : env.configRead with
  | enoent =>
    rw [deploy_enoent hc]
    simp [Trace.empty, Trace.addLog]
  | unreadable =>
    rw [deploy_unreadable hc]
    simp [Trace.empty, Trace.addLog]
  | ok cfg =>
    cases hl : lookupNetwork cfg (jsToLowerCase net0) with
    | none =>
      rw [deploy_noalias hc hl]
      simp [Trace.empty, Trace.addLog]
    | some nc =>
      cases hu : truthyStr nc.url with
      | false =>
        rw [deploy_nourl hc hl hu]
        simp [Trace.empty, Trace.addLog]
      | true =>
        cases hb : env.buildOk with
        | false =>
          rw [deploy_nobuild hc hl hu hb]
          simp [Trace.empty]
        | true =>
          rw [deploy_run hc hl hu hb, resolveStage_countSubmits_bad h]
          simp [Trace.empty]

/-- A deploy run issues at most one submission call. -/
theorem deploy_countSubmits_le {env : DeployEnv} {net0 : String} {yes : Bool} :
    countSubmits (deploy env net0 yes).trace.networkCalls ≤ 1 := by
  cases hc : env.configRead with
  | enoent =>
    rw [deploy_enoent hc]
    simp [Trace.empty, Trace.addLog]
  | unreadable =>
    rw [deploy_unreadable hc]
    simp [Trace.empty, Trace.addLog]
  | ok cfg =>
    cases hl : lookupNetwork cfg (jsToLowerCase net0) with
    | none =>
      rw [deploy_noalias hc hl]
      simp [Trace.empty, Trace.addLog]
    | some nc =>
      cases hu : truthyStr nc.url with
      | false =>
        rw [deploy_nourl hc hl hu]
        simp [Trace.empty, Trace.addLog]
      | true =>
        cases hb : env.buildOk with
        | false =>
          rw [deploy_nobuild hc hl hu hb]
          simp [Trace.empty]
        | true =>
          rw [deploy_run hc hl hu hb]
          have hle := @resolveStage_countSubmits_le env yes (jsToLowerCase net0) cfg Trace.empty
          simpa [Trace.empty] using hle

/-- Bad interactive confirmation input: a run that signed aborts. -/
theorem deploy_outcome_bad {env : DeployEnv} {net0 : String} {sp : SignedPayment}
    (h : (jsToLowerCase env.confirmInput == "yes" || jsToLowerCase env.confirmInput == "y")
          = false)
    (hs : (deploy env net0 false).signed = some sp) :
    (deploy env net0 false).outcome = .aborted := by
  cases hc : env.configRead with
  | enoent =>
    rw [deploy_enoent hc] at hs
    simp at hs
  | unreadable =>
    rw [deploy_unreadable hc] at hs
    simp at hs
  | ok cfg =>
    cases hl : lookupNetwork cfg (jsToLowerCase net0) with
    | none =>
      rw [deploy_noalias hc hl] at hs
      simp at hs
    | some nc =>
      cases hu : truthyStr nc.url with
      | false =>
        rw [deploy_nourl hc hl hu] at hs
        simp at hs
      | true =>
        cases hb : env.buildOk with
        | false =>
          rw [deploy_nobuild hc hl hu hb] at hs
          simp at hs
        | true =>
          rw [deploy_run hc hl hu hb] at hs ⊢
          exact resolveStage_outcome_bad h hs

/-- Affirmative confirmation (flag or input): a deploy run never aborts. -/
theorem deploy_ne_aborted_good {env : DeployEnv} {net0 : String} {yes : Bool}
    (h : yes = true ∨
      (jsToLowerCase env.confirmInput == "yes" || jsToLowerCase env.confirmInput == "y") = true) :
    (deploy env net0 yes).outcome ≠ .aborted := by
  cases hc : env.configRead with
  | enoent =>
    rw [deploy_enoent hc]
    simp
  | unreadable =>
    rw [deploy_unreadable hc]
    simp
  | ok cfg =>
    cases hl : lookupNetwork cfg (jsToLowerCase net0) with
    | none =>
      rw [deploy_noalias hc hl]
      simp
    | some nc =>
      cases hu : truthyStr nc.url with
      | false =>
        rw [deploy_nourl hc hl hu]
        simp
      | true =>
        cases hb : env.buildOk with
        | false =>
          rw [deploy_nobuild hc hl hu hb]
          simp
        | true =>
          rw [deploy_run hc hl hu hb]
          exact resolveStage_ne_aborted_good h

/-- Affirmative confirmation: a run that signed submits exactly once. -/
theorem deploy_countSubmits_good {env : DeployEnv} {net0 : String} {yes : Bool}
    {sp : SignedPayment}
    (h : yes = true ∨
      (jsToLowerCase env.confirmInput == "yes" || jsToLowerCase env.confirmInput == "y") = true)
    (hs : (deploy env net0 yes).signed = some sp) :
    countSubmits (deploy env net0 yes).trace.networkCalls = 1 := by
  cases hc : env.configRead with
  | enoent =>
    rw [deploy_enoent hc] at hs
    simp at hs
  | unreadable =>
    rw [deploy_unreadable hc] at hs
    simp at hs
  | ok cfg =>
    cases hl : lookupNetwork cfg (jsToLowerCase net0) with
    | none =>
      rw [deploy_noalias hc hl] at hs
      simp at hs
    | some nc =>
      cases hu : truthyStr nc.url with
      | false =>
        rw [deploy_nourl hc hl hu] at hs
        simp at hs
      | true =>
        cases hb : env.buildOk with
        | false =>
          rw [deploy_nobuild hc hl hu hb] at hs
          simp at hs
        | true =>
          rw [deploy_run hc hl hu hb] at hs ⊢
          rw [resolveStage_countSubmits_good h hs]
          simp [Trace.empty]

/-- `confirmFree` distributes over append. -/
theorem confirmFree_append (l l' : List PromptEvent) :
    confirmFree (l ++ l') = (confirmFree l && confirmFree l') := by
  simp [confirmFree, List.all_append]

@[simp] theorem confirmFree_nil : confirmFree [] = true := rfl

@[simp] theorem confirmFree_feePrompt : confirmFree [.feePrompt] = true := rfl

@[simp] theorem confirmFree_noncePrompt : confirmFree [.noncePrompt] = true := rfl

@[simp] theorem confirmFree_selectContract (ch : List String) :
    confirmFree [.selectContract ch] = true := rfl

/-- A confirm-free prompt list does not contain the confirmation prompt. -/
theorem not_mem_of_confirmFree {l : List PromptEvent} (h : confirmFree l = true) :
    PromptEvent.confirmPrompt ∉ l := by
  intro hm
  simp only [confirmFree] at h
  have h2 := List.all_eq_true.mp h _ hm
  simp at h2

/-- With the auto-confirm flag, signing shows no prompt. -/
theorem signStage_prompts_yes {env : DeployEnv} {ep sk fpk fee nonce : String} {t : Trace} :
    (signStage env true ep sk fpk fee nonce t).trace.prompts = t.prompts := by
  simp only [signStage, signTransaction]
  rw [confirmStage_yes]
  exact submitStage_prompts

/-- With the auto-confirm flag, the nonce stage never shows the
confirmation prompt. -/
theorem nonceStage_confirmFree_yes {env : DeployEnv} {ep sk fpk fee : String} {t : Trace}
    (h0 : confirmFree t.prompts = true) :
    confirmFree (nonceStage env true ep sk fpk fee t).trace.prompts = true := by
  cases ht : truthyStr (gqlNonce (sendGraphQL env.accountFetch)) with
  | true =>
    rw [nonceStage_truthy ht, signStage_prompts_yes]
    simpa [Trace.addCall] using h0
  | false =>
    cases hp : promptFirstValid env.nonceInputs with
    | none =>
      rw [nonceStage_fallback_none ht hp]
      simp [Trace.addCall, Trace.addPrompt, confirmFree_append, h0]
    | some nv =>
      rw [nonceStage_fallback_some ht hp, signStage_prompts_yes]
      simp [Trace.addCall, Trace.addPrompt, confirmFree_append, h0]

/-- With the auto-confirm flag, the fee stage never shows the
confirmation prompt. -/
theorem feeStage_confirmFree_yes {env : DeployEnv} {net : String} {cfg : Config} {sk : String}
    {t : Trace} (h0 : confirmFree t.prompts = true) :
    confirmFree (feeStage env true net cfg sk t).trace.prompts = true := by
  cases hp : promptFirstValid env.feeInputs with
  | none =>
    rw [feeStage_cancel hp]
    simp [Trace.addPrompt, confirmFree_append, h0]
  | some f =>
    cases hf : f == "" with
    | true =>
      rw [show f = "" from by simpa using hf] at hp
      rw [feeStage_empty hp]
      simp [Trace.addPrompt, confirmFree_append, h0]
    | false =>
      rw [feeStage_some hp hf]
      apply nonceStage_confirmFree_yes
      simp [Trace.addPrompt, confirmFree_append, h0]

/-- With the auto-confirm flag, the import stage never shows the
confirmation prompt. -/
theorem importStage_confirmFree_yes {env : DeployEnv} {net : String} {cfg : Config}
    {cn : String} {t : Trace} (h0 : confirmFree t.prompts = true) :
    confirmFree (importStage env true net cfg cn t).trace.prompts = true := by
  cases h1 : env.importOk with
  | false =>
    rw [importStage_importFail h1]
    simpa [Trace.addLog] using h0
  | true =>
    cases h2 : env.exportPresent with
    | false =>
      rw [importStage_exportFail h1 h2]
      simpa [Trace.addLog] using h0
    | true =>
      cases h3 : lookupKeyFile env.keyFiles ("keys/" ++ net ++ ".json") with
      | none =>
        rw [importStage_keyFail h1 h2 h3]
        simpa [Trace.addLog] using h0
      | some kf =>
        rw [importStage_ok h1 h2 h3]
        exact feeStage_confirmFree_yes h0

/-- With the auto-confirm flag, the persist stage never shows the
confirmation prompt. -/
theorem persistStage_confirmFree_yes {env : DeployEnv} {net : String} {cfg : Config}
    {cn : String} {t : Trace} (h0 : confirmFree t.prompts = true) :
    confirmFree (persistStage env true net cfg cn t).trace.prompts = true := by
  cases hw : cfgSmartContract cfg net == some cn with
  | true =>
    rw [persistStage_same hw]
    exact importStage_confirmFree_yes h0
  | false =>
    rw [persistStage_diff hw]
    apply importStage_confirmFree_yes
    simpa [Trace.addWrite, Trace.addLog] using h0

/-- With the auto-confirm flag, resolution never shows the confirmation
prompt. -/
theorem resolveStage_confirmFree_yes {env : DeployEnv} {net : String} {cfg : Config}
    {t : Trace} (h0 : confirmFree t.prompts = true) :
    confirmFree (resolveStage env true net cfg t).trace.prompts = true := by
  cases hch : chooseSmartContract cfg env.build net == "" with
  | true =>
    have hch' : chooseSmartContract cfg env.build net = "" := by simpa using hch
    cases hsel : env.selectInput with
    | none =>
      rw [resolveStage_cancel hch' hsel]
      simp [Trace.addPrompt, confirmFree_append, h0]
    | some sel =>
      rw [resolveStage_selected hch' hsel]
      apply persistStage_confirmFree_yes
      simp [Trace.addPrompt, confirmFree_append, h0]
  | false =>
    rw [resolveStage_direct hch]
    split <;> (apply persistStage_confirmFree_yes; simpa [Trace.addLog] using h0)

/-- With the auto-confirm flag, a deploy run shows no confirmation
prompt. -/
theorem deploy_confirmFree_yes {env : DeployEnv} {net0 : String} :
    confirmFree (deploy env net0 true).trace.prompts = true := by
  cases hc : env.configRead with
  | enoent =>
    rw [deploy_enoent hc]
    simp [Trace.empty, Trace.addLog, confirmFree]
  | unreadable =>
    rw [deploy_unreadable hc]
    simp [Trace.empty, Trace.addLog, confirmFree]
  | ok cfg =>
    cases hl : lookupNetwork cfg (jsToLowerCase net0) with
    | none =>
      rw [deploy_noalias hc hl]
      simp [Trace.empty, Trace.addLog, confirmFree]
    | some nc =>
      cases hu : truthyStr nc.url with
      | false =>
        rw [deploy_nourl hc hl hu]
        simp [Trace.empty, Trace.addLog, confirmFree]
      | true =>
        cases hb : env.buildOk with
        | false =>
          rw [deploy_nobuild hc hl hu hb]
          simp [Trace.empty, confirmFree]
        | true =>
          rw [deploy_run hc hl hu hb]
          apply resolveStage_confirmFree_yes
          simp [Trace.empty, confirmFree]

/-! ## The claims -/

/-- C1: the Signer converts the fee prompt value to the nanomina fee field
of the signed transaction by string-concatenating exactly nine zero
digits: for every fee string `f` the fee prompt accepts, every signed
payment of the run has fee field `f ++ "000000000"`, byte for byte. -/
theorem c1_signer_fee_string_concat :
    ∀ (env : DeployEnv) (network : String) (yes : Bool) (f : String) (sp : SignedPayment),
      promptFirstValid env.feeInputs = some f →
      (deploy env network yes).signed = some sp →
      sp.feePayer.fee = f ++ "000000000" := by
  intro env network yes f sp hp hs
  simpa [feeToNanomina] using deploy_fee hp hs

/-- C1 witness: the fee input `0.01` yields the fee field
`"0.01000000000"` in the happy-path run. -/
theorem c1_witness :
    promptFirstValid happyEnv.feeInputs = some "0.01" ∧
    (deploy happyEnv "testnet" true).signed = some happyPayment ∧
    happyPayment.feePayer.fee = "0.01" ++ "000000000" :=
  ⟨by decide, by decide,
    c1_signer_fee_string_concat happyEnv "testnet" true "0.01" happyPayment
      (by decide) (by decide)⟩

/-- C2: the Contract Resolver decides in order: a recorded (non-empty)
`smartContract` for the alias is returned unconditionally, for every
artifact; else a single discovered name is returned; else the resolver
returns the falsy empty string and the pipeline shows the selection
prompt over the discovered list. -/
theorem c2_contract_resolver_policy :
    (∀ (config : Config) (b : Build) (network sc : String),
        cfgSmartContract config network = some sc → sc ≠ "" →
        chooseSmartContract config b network = sc) ∧
    (∀ (config : Config) (b : Build) (network c : String),
        truthyStr (cfgSmartContract config network) = false →
        b.smartContracts = [c] →
        chooseSmartContract config b network = c) ∧
    (∀ (config : Config) (b : Build) (network : String),
        truthyStr (cfgSmartContract config network) = false →
        b.smartContracts.length ≠ 1 →
        chooseSmartContract config b network = "") ∧
    (∀ (env : DeployEnv) (yes : Bool) (network : String) (config : Config) (t : Trace),
        chooseSmartContract config env.build network = "" →
        PromptEvent.selectContract env.build.smartContracts
          ∈ (resolveStage env yes network config t).trace.prompts) := by
  refine ⟨?_, ?_, ?_, ?_⟩
  · intro config b network sc h hne
    simp [chooseSmartContract, h, truthyStr, hne]
  · intro config b network c h hb
    simp [chooseSmartContract, h, hb]
  · intro config b network h hn
    simp [chooseSmartContract, h, hn]
  · intro env yes network config t h
    exact resolveStage_selectPrompt h

/-- C2 witness: a configured `Foo` wins even against an artifact not
containing it; a single discovered `Foo` wins with nothing configured;
two discovered names resolve falsy and the pipeline prompts over them. -/
theorem c2_witness :
    chooseSmartContract happyConfig ⟨["Bar"]⟩ "testnet" = "Foo" ∧
    chooseSmartContract noScConfig ⟨["Foo"]⟩ "testnet" = "Foo" ∧
    chooseSmartContract noScConfig ⟨["A", "B"]⟩ "testnet" = "" ∧
    PromptEvent.selectContract ["A", "B"]
      ∈ (resolveStage selEnv false "testnet" noScConfig Trace.empty).trace.prompts :=
  ⟨c2_contract_resolver_policy.1 happyConfig ⟨["Bar"]⟩ "testnet" "Foo" (by decide) (by decide),
   c2_contract_resolver_policy.2.1 noScConfig ⟨["Foo"]⟩ "testnet" "Foo" (by decide) (by decide),
   c2_contract_resolver_policy.2.2.1 noScConfig ⟨["A", "B"]⟩ "testnet" (by decide) (by decide),
   c2_contract_resolver_policy.2.2.2 selEnv false "testnet" noScConfig Trace.empty (by decide)⟩

/-- C3: without the auto-confirm flag, any confirmation input whose
lowercase form is neither `yes` nor `y` leads to Aborted with no
submission call ever issued; a lowercase-`yes`/`y` input (so both `YES`
and `y`) proceeds past the gate (never Aborted, and one submission once
signed); with the auto-confirm flag no confirmation prompt is shown and
the run is never Aborted. -/
theorem c3_confirmation_gate :
    (∀ (env : DeployEnv) (network : String),
        jsToLowerCase env.confirmInput ≠ "yes" → jsToLowerCase env.confirmInput ≠ "y" →
        countSubmits (deploy env network false).trace.networkCalls = 0 ∧
        (∀ sp, (deploy env network false).signed = some sp →
          (deploy env network false).outcome = .aborted)) ∧
    (∀ (env : DeployEnv) (network : String),
        (jsToLowerCase env.confirmInput = "yes" ∨ jsToLowerCase env.confirmInput = "y") →
        (deploy env network false).outcome ≠ .aborted ∧
        (∀ sp, (deploy env network false).signed = some sp →
          countSubmits (deploy env network false).trace.networkCalls = 1)) ∧
    (∀ (env : DeployEnv) (network : String),
        PromptEvent.confirmPrompt ∉ (deploy env network true).trace.prompts ∧
        (deploy env network true).outcome ≠ .aborted) := by
  refine ⟨?_, ?_, ?_⟩
  · intro env network h1 h2
    have hb : (jsToLowerCase env.confirmInput == "yes"
        || jsToLowerCase env.confirmInput == "y") = false := by
      simp [h1, h2]
    exact ⟨deploy_countSubmits_bad hb, fun sp hs => deploy_outcome_bad hb hs⟩
  · intro env network h
    have hg : (jsToLowerCase env.confirmInput == "yes"
        || jsToLowerCase env.confirmInput == "y") = true := by
      rcases h with h | h <;> simp [h]
    exact ⟨deploy_ne_aborted_good (Or.inr hg),
      fun sp hs => deploy_countSubmits_good (Or.inr hg) hs⟩
  · intro env network
    exact ⟨not_mem_of_confirmFree deploy_confirmFree_yes,
      deploy_ne_aborted_good (Or.inl rfl)⟩

/-- C3 witness: input `no` aborts with zero submissions; inputs `YES` and
`y` proceed (one submission in the happy runs); the auto-confirm flag
shows no confirmation prompt. -/
theorem c3_witness :
    countSubmits (deploy abortEnv "testnet" false).trace.networkCalls = 0 ∧
    (deploy abortEnv "testnet" false).outcome = .aborted ∧
    (deploy yesUpperEnv "testnet" false).outcome ≠ .aborted ∧
    countSubmits (deploy yesUpperEnv "testnet" false).trace.networkCalls = 1 ∧
    (deploy yEnv "testnet" false).outcome ≠ .aborted ∧
    countSubmits (deploy yEnv "testnet" false).trace.networkCalls = 1 ∧
    PromptEvent.confirmPrompt ∉ (deploy happyEnv "testnet" true).trace.prompts :=
  ⟨(c3_confirmation_gate.1 abortEnv "testnet" (by decide) (by decide)).1,
   (c3_confirmation_gate.1 abortEnv "testnet" (by decide) (by decide)).2
     happyPayment (by decide),
   (c3_confirmation_gate.2.1 yesUpperEnv "testnet" (by decide)).1,
   (c3_confirmation_gate.2.1 yesUpperEnv "testnet" (by decide)).2 happyPayment (by decide),
   (c3_confirmation_gate.2.1 yEnv "testnet" (by decide)).1,
   (c3_confirmation_gate.2.1 yEnv "testnet" (by decide)).2 happyPayment (by decide),
   (c3_confirmation_gate.2.2 happyEnv "testnet").1⟩

/-- C4: a configuration lacking the target alias, or holding it with a
falsy (missing or empty) url, makes deploy abort immediately with the
printed cause, before any network call and without any config.json
write. -/
theorem c4_missing_alias_or_url_aborts_early :
    ∀ (env : DeployEnv) (network : String) (yes : Bool) (config : Config),
      env.configRead = .ok config →
      ((lookupNetwork config (jsToLowerCase network) = none →
          (deploy env network yes).outcome = .networkNotFound ∧
          (deploy env network yes).trace.networkCalls = [] ∧
          (deploy env network yes).trace.configWrites = [] ∧
          (deploy env network yes).trace.logs
            = [msgNetworkNotFound1, msgNetworkNotFound2]) ∧
       (∀ nc, lookupNetwork config (jsToLowerCase network) = some nc →
          truthyStr nc.url = false →
          (deploy env network yes).outcome = .urlMissing ∧
          (deploy env network yes).trace.networkCalls = [] ∧
          (deploy env network yes).trace.configWrites = [] ∧
          (deploy env network yes).trace.logs = [msgUrlMissing1, msgUrlMissing2])) := by
  intro env network yes config hc
  constructor
  · intro hl
    rw [deploy_noalias hc hl]
    simp [Trace.empty, Trace.addLog]
  · intro nc hl hu
    rw [deploy_nourl hc hl hu]
    simp [Trace.empty, Trace.addLog]

/-- C4 witness: an unknown alias `devnet` and a url-less `testnet` both
abort with the printed cause, no network call and no config write. -/
theorem c4_witness :
    ((deploy happyEnv "devnet" false).outcome = .networkNotFound ∧
      (deploy happyEnv "devnet" false).trace.networkCalls = [] ∧
      (deploy happyEnv "devnet" false).trace.configWrites = [] ∧
      (deploy happyEnv "devnet" false).trace.logs
        = [msgNetworkNotFound1, msgNetworkNotFound2]) ∧
    ((deploy noUrlEnv "testnet" false).outcome = .urlMissing ∧
      (deploy noUrlEnv "testnet" false).trace.networkCalls = [] ∧
      (deploy noUrlEnv "testnet" false).trace.configWrites = [] ∧
      (deploy noUrlEnv "testnet" false).trace.logs = [msgUrlMissing1, msgUrlMissing2]) :=
  ⟨(c4_missing_alias_or_url_aborts_early happyEnv "devnet" false happyConfig rfl).1
      (by decide),
   (c4_missing_alias_or_url_aborts_early noUrlEnv "testnet" false noUrlConfig rfl).2
      ⟨none, some "0.1", some "keys/testnet.json", some "Foo"⟩ (by decide) (by decide)⟩

/-- C5 counterexample: the account query succeeds and its response
contains a nonce field (the empty string), yet that nonce is not used for
signing — the code tests JS truthiness, so the pipeline prompts and signs
with the prompted `7` instead. -/
theorem c5_counterexample :
    gqlNonce (sendGraphQL emptyNonceEnv.accountFetch) = some "" ∧
    (deploy emptyNonceEnv "testnet" true).signed
      = some ⟨"PARTIES", ⟨"PUB:SK", "7", "0.01000000000", ""⟩, "SK"⟩ ∧
    PromptEvent.noncePrompt ∈ (deploy emptyNonceEnv "testnet" true).trace.prompts := by
  decide

/-- C5 amended: if the account query succeeds and the response carries a
non-empty (truthy) nonce field, that nonce is signed with and no nonce
prompt is shown; if the query fails, times out, or the nonce field is
absent or empty, the pipeline falls back to the numeric nonce prompt,
signing with the prompted value (re-prompting on blank or non-numeric
input with no retry limit, and ending the run only on cancellation). -/
theorem c5_nonce_resolver_amended :
    (∀ (env : DeployEnv) (yes : Bool) (ep sk fpk fee : String) (t : Trace) (s : String),
        gqlNonce (sendGraphQL env.accountFetch) = some s → s ≠ "" →
        (nonceStage env yes ep sk fpk fee t).signed
          = some ⟨env.partiesJson, ⟨fpk, s, feeToNanomina fee, ""⟩, sk⟩ ∧
        (PromptEvent.noncePrompt ∉ t.prompts →
          PromptEvent.noncePrompt ∉ (nonceStage env yes ep sk fpk fee t).trace.prompts)) ∧
    (∀ (env : DeployEnv) (yes : Bool) (ep sk fpk fee : String) (t : Trace),
        truthyStr (gqlNonce (sendGraphQL env.accountFetch)) = false →
        PromptEvent.noncePrompt ∈ (nonceStage env yes ep sk fpk fee t).trace.prompts ∧
        (∀ nv, promptFirstValid env.nonceInputs = some nv →
          (nonceStage env yes ep sk fpk fee t).signed
            = some ⟨env.partiesJson, ⟨fpk, nv, feeToNanomina fee, ""⟩, sk⟩) ∧
        (promptFirstValid env.nonceInputs = none →
          (nonceStage env yes ep sk fpk fee t).outcome = .nonceCancelled)) ∧
    requiredNumberValidate "" = false ∧
    (∀ s, jsIsNaN s = true → requiredNumberValidate s = false) ∧
    (∀ bad rest, requiredNumberValidate bad = false →
        promptFirstValid (bad :: rest) = promptFirstValid rest) := by
  refine ⟨?_, ?_, by decide, ?_, ?_⟩
  · intro env yes ep sk fpk fee t s hg hne
    have ht : truthyStr (gqlNonce (sendGraphQL env.accountFetch)) = true := by
      simp [truthyStr, hg, hne]
    constructor
    · rw [nonceStage_truthy_signed ht, hg]
      rfl
    · intro h0
      exact nonceStage_no_new_noncePrompt ht h0
  · intro env yes ep sk fpk fee t ht
    refine ⟨nonceStage_noncePrompt ht, ?_, ?_⟩
    · intro nv hp
      exact nonceStage_fallback_signed ht hp
    · intro hp
      rw [nonceStage_fallback_none ht hp]
  · intro s h
    simp [requiredNumberValidate, h]
  · intro bad rest h
    simp [promptFirstValid, h]

/-- C5 amended witness: a truthy nonce `3` is signed with and no prompt
is shown; the empty-nonce response falls back to the prompt and signs
with `7`; the validator rejects blank and non-numeric input; an invalid
input is skipped and the prompt re-asks over the rest. -/
theorem c5_witness :
    (nonceStage happyEnv true "EP" "SK" "PUB:SK" "0.01" Trace.empty).signed
      = some ⟨"PARTIES", ⟨"PUB:SK", "3", feeToNanomina "0.01", ""⟩, "SK"⟩ ∧
    PromptEvent.noncePrompt
      ∈ (nonceStage emptyNonceEnv true "EP" "SK" "PUB:SK" "0.01" Trace.empty).trace.prompts ∧
    requiredNumberValidate "abc" = false ∧
    promptFirstValid ["abc", "7"] = promptFirstValid ["7"] :=
  ⟨(c5_nonce_resolver_amended.1 happyEnv true "EP" "SK" "PUB:SK" "0.01" Trace.empty "3"
      (by decide) (by decide)).1,
   (c5_nonce_resolver_amended.2.1 emptyNonceEnv true "EP" "SK" "PUB:SK" "0.01" Trace.empty
      (by decide)).1,
   c5_nonce_resolver_amended.2.2.2.1 "abc" (by decide),
   c5_nonce_resolver_amended.2.2.2.2 "abc" ["7"] (by decide)⟩

/-- C6 counterexample: an HTTP-success submission response whose payload
lacks the transaction object (no `data`) is not reported as a failure —
the property access throws, the caught error object passes the
`!txn || txn?.kind` check, and the run reports success with an undefined
hash. -/
theorem c6_counterexample :
    sendGraphQL missingDataEnv.submitFetch
      = .ok ⟨none, some "Invalid query"⟩ ∧
    txnIsFailure (extractTxn (sendGraphQL missingDataEnv.submitFetch)) = false ∧
    (deploy missingDataEnv "testnet" true).outcome
      = .success none (txUrlBase ++ "undefined") ∧
    msgRelayerFailed ∉ (deploy missingDataEnv "testnet" true).trace.logs := by
  decide

/-- C6 amended: an HTTP non-success status yields an error result with
status code, status text and the server errors as message; a transport
failure inside the bound yields an error result with the exception as
message; an HTTP success whose `data.sendZkapp` envelope is present and
whose zkapp object is missing or marked `kind: "error"` is reported to
the operator as a failure (when the envelope itself is missing, the
thrown lookup error is caught and the run instead reports success with an
undefined hash); an HTTP success with a transaction hash yields success
with that hash; and no run ever issues more than one submission call. -/
theorem c6_submitter_classification_amended :
    (∀ (d status : Nat) (stx : String) (body : GqlBody SubmitData), d < TIMEOUT_MS →
        sendGraphQL (.responds d false status stx body)
          = .error (.http status stx body.errors)) ∧
    (∀ (d : Nat) (msg : String), d < TIMEOUT_MS →
        sendGraphQL (@FetchBehavior.netError SubmitData d msg) = .error (.transport msg)) ∧
    (∀ (env : DeployEnv) (ep : String) (s : SignedPayment) (t : Trace) (d status : Nat)
        (stx : String) (zk : Option ZkappObj) (errs : Option String),
        env.submitFetch = .responds d true status stx ⟨some ⟨some ⟨zk⟩⟩, errs⟩ →
        d < TIMEOUT_MS →
        (zk = none ∨ ∃ z, zk = some z ∧ z.kind = some "error") →
        (submitStage env ep s t).outcome = .relayerFailed ∧
        msgRelayerFailed ∈ (submitStage env ep s t).trace.logs) ∧
    (∀ (env : DeployEnv) (ep : String) (s : SignedPayment) (t : Trace) (d status : Nat)
        (stx : String) (z : ZkappObj) (errs : Option String) (h : String),
        env.submitFetch = .responds d true status stx ⟨some ⟨some ⟨some z⟩⟩, errs⟩ →
        d < TIMEOUT_MS →
        z.kind ≠ some "error" → z.hash = some h →
        (submitStage env ep s t).outcome = .success (some h) (txUrlBase ++ h)) ∧
    (∀ (env : DeployEnv) (network : String) (yes : Bool),
        countSubmits (deploy env network yes).trace.networkCalls ≤ 1) := by
  refine ⟨?_, ?_, ?_, ?_, ?_⟩
  · intro d status stx body hd
    simp [sendGraphQL, fetchDuration, Nat.not_le.mpr hd]
  · intro d msg hd
    simp [sendGraphQL, fetchDuration, Nat.not_le.mpr hd]
  · intro env ep s t d status stx zk errs hsf hd hfail
    have hsend : sendGraphQL env.submitFetch = .ok ⟨some ⟨some ⟨zk⟩⟩, errs⟩ := by
      rw [hsf]
      simp [sendGraphQL, fetchDuration, Nat.not_le.mpr hd]
    have hfailb : txnIsFailure (extractTxn (sendGraphQL env.submitFetch)) = true := by
      rw [hsend]
      rcases hfail with h | ⟨z, hz, hk⟩
      · subst h
        rfl
      · subst hz
        simp [extractTxn, txnIsFailure, hk]
    constructor
    · simp [submitStage, hfailb]
    · simp [submitStage, hfailb, Trace.addCall, Trace.addLog]
  · intro env ep s t d status stx z errs h hsf hd hk hh
    have hsend : sendGraphQL env.submitFetch = .ok ⟨some ⟨some ⟨some z⟩⟩, errs⟩ := by
      rw [hsf]
      simp [sendGraphQL, fetchDuration, Nat.not_le.mpr hd]
    have hfailb : txnIsFailure (extractTxn (sendGraphQL env.submitFetch)) = false := by
      rw [hsend]
      simp [extractTxn, txnIsFailure, hk]
    have hhash : txnHash (extractTxn (sendGraphQL env.submitFetch)) = some h := by
      rw [hsend]
      simp [extractTxn, txnHash, hh]
    simp [submitStage, hfailb, hhash]
  · intro env network yes
    exact deploy_countSubmits_le

/-- C6 amended witness: a 500 status classifies as http with the server
errors; a refused connection classifies as transport; a zkapp marked
`kind: "error"` is reported as failure; the happy submission response
yields success with hash `0xabc`; the happy run issues exactly one
submission call. -/
theorem c6_witness :
    sendGraphQL (.responds 100 false 500 "Internal Server Error"
        (⟨none, some "boom"⟩ : GqlBody SubmitData))
      = .error (.http 500 "Internal Server Error" (some "boom")) ∧
    sendGraphQL (@FetchBehavior.netError SubmitData 50 "ECONNREFUSED")
      = .error (.transport "ECONNREFUSED") ∧
    (submitStage kindErrorEnv "EP" happyPayment Trace.empty).outcome = .relayerFailed ∧
    (submitStage happyEnv "EP" happyPayment Trace.empty).outcome
      = .success (some "0xabc") (txUrlBase ++ "0xabc") ∧
    countSubmits (deploy happyEnv "testnet" true).trace.networkCalls ≤ 1 :=
  ⟨c6_submitter_classification_amended.1 100 500 "Internal Server Error" ⟨none, some "boom"⟩
      (by decide),
   c6_submitter_classification_amended.2.1 50 "ECONNREFUSED" (by decide),
   (c6_submitter_classification_amended.2.2.1 kindErrorEnv "EP" happyPayment Trace.empty
      100 200 "OK" (some ⟨none, none, some "error"⟩) none rfl (by decide)
      (Or.inr ⟨⟨none, none, some "error"⟩, rfl, rfl⟩)).1,
   c6_submitter_classification_amended.2.2.2.1 happyEnv "EP" happyPayment Trace.empty
      100 200 "OK" ⟨some "1", some "0xabc", none⟩ none "0xabc" rfl (by decide)
      (by decide) rfl,
   c6_submitter_classification_amended.2.2.2.2 happyEnv "testnet" true⟩

/-- C7: both network calls run through `sendGraphQL`, which arms an
explicit 20000 ms abort; any fetch that would settle only at or past the
bound resolves as a transport-classified error result instead of
blocking, and an over-bound account query makes the pipeline fall back to
the nonce prompt. -/
theorem c7_timeout_bound :
    TIMEOUT_MS = 20000 ∧
    (∀ (b : FetchBehavior AccountData), TIMEOUT_MS ≤ fetchDuration b →
        sendGraphQL b = .error (.transport abortErrorMessage)) ∧
    (∀ (b : FetchBehavior SubmitData), TIMEOUT_MS ≤ fetchDuration b →
        sendGraphQL b = .error (.transport abortErrorMessage)) ∧
    (∀ (env : DeployEnv) (yes : Bool) (ep sk fpk fee : String) (t : Trace),
        TIMEOUT_MS ≤ fetchDuration env.accountFetch →
        PromptEvent.noncePrompt ∈ (nonceStage env yes ep sk fpk fee t).trace.prompts) := by
  refine ⟨rfl, ?_, ?_, ?_⟩
  · intro b hb
    simp [sendGraphQL, hb]
  · intro b hb
    simp [sendGraphQL, hb]
  · intro env yes ep sk fpk fee t hb
    have ht : truthyStr (gqlNonce (sendGraphQL env.accountFetch)) = false := by
      have : sendGraphQL env.accountFetch = .error (.transport abortErrorMessage) := by
        simp [sendGraphQL, hb]
      rw [this]
      rfl
    exact nonceStage_noncePrompt ht

/-- C7 witness: a fetch settling exactly at 20000 ms classifies as a
transport error, for both operations, and a 25-second account query makes
the run show the nonce prompt. -/
theorem c7_witness :
    sendGraphQL (@FetchBehavior.netError AccountData 20000 "slow")
      = .error (.transport abortErrorMessage) ∧
    sendGraphQL (.responds 20000 true 200 "OK" happySubmitBody)
      = .error (.transport abortErrorMessage) ∧
    PromptEvent.noncePrompt
      ∈ (nonceStage slowNonceEnv false "EP" "SK" "PUB:SK" "0.01" Trace.empty).trace.prompts :=
  ⟨c7_timeout_bound.2.1 (@FetchBehavior.netError AccountData 20000 "slow") (by decide),
   c7_timeout_bound.2.2.1 (.responds 20000 true 200 "OK" happySubmitBody) (by decide),
   c7_timeout_bound.2.2.2 slowNonceEnv false "EP" "SK" "PUB:SK" "0.01" Trace.empty
     (by decide)⟩

/-- C8: on the first resolution for an alias (nothing truthy stored), the
resolved non-empty contract name — whether it came directly from the
resolver or from the selection prompt — is written into the configuration
exactly once; on a later deploy whose alias already stores that (truthy)
name, the stored name is what the resolver returns, no selection prompt
is ever shown, and config.json is not rewritten. -/
theorem c8_persistence_idempotent :
    (∀ (env : DeployEnv) (network : String) (yes : Bool) (config : Config) (nc : NetworkCfg)
        (c : String),
        env.configRead = .ok config →
        lookupNetwork config (jsToLowerCase network) = some nc →
        truthyStr nc.url = true → env.buildOk = true →
        truthyStr (cfgSmartContract config (jsToLowerCase network)) = false →
        c ≠ "" →
        (chooseSmartContract config env.build (jsToLowerCase network) = c ∨
          (chooseSmartContract config env.build (jsToLowerCase network) = "" ∧
            env.selectInput = some c)) →
        (deploy env network yes).trace.configWrites
          = [setSmartContract config (jsToLowerCase network) c]) ∧
    (∀ (env : DeployEnv) (network : String) (yes : Bool) (config : Config) (nc : NetworkCfg)
        (c : String),
        env.configRead = .ok config →
        lookupNetwork config (jsToLowerCase network) = some nc →
        truthyStr nc.url = true → env.buildOk = true →
        nc.smartContract = some c → c ≠ "" →
        chooseSmartContract config env.build (jsToLowerCase network) = c ∧
        selectFree (deploy env network yes).trace.prompts = true ∧
        (deploy env network yes).trace.configWrites = []) := by
  constructor
  · intro env network yes config nc c hc hl hu hb hns hcne hres
    rw [deploy_run hc hl hu hb]
    have hcb : (c == "") = false := by simp [hcne]
    have hwne : (cfgSmartContract config (jsToLowerCase network) == some c) = false :=
      not_truthy_beq_some_false hns hcb
    rcases hres with hdir | ⟨hfalsy, hsel⟩
    · have hch : (chooseSmartContract config env.build (jsToLowerCase network) == "")
          = false := by
        rw [hdir]
        simp [hcne]
      rw [resolveStage_direct hch, hdir, persistStage_diff hwne, importStage_writes]
      simp [hns, Trace.empty, Trace.addLog, Trace.addWrite]
    · rw [resolveStage_selected hfalsy hsel, persistStage_diff hwne, importStage_writes]
      simp [Trace.empty, Trace.addPrompt, Trace.addWrite, Trace.addLog]
  · intro env network yes config nc c hc hl hu hb hsc hcne
    have hcfg : cfgSmartContract config (jsToLowerCase network) = some c := by
      simp [cfgSmartContract, hl, hsc]
    have htr : truthyStr (cfgSmartContract config (jsToLowerCase network)) = true := by
      rw [hcfg]
      simp [truthyStr, hcne]
    have htc : truthyStr (some c) = true := by
      simp [truthyStr, hcne]
    have hch : chooseSmartContract config env.build (jsToLowerCase network) = c := by
      simp [chooseSmartContract, hcfg, htc]
    have hchb : (chooseSmartContract config env.build (jsToLowerCase network) == "")
        = false := by
      rw [hch]
      simp [hcne]
    have hw : (cfgSmartContract config (jsToLowerCase network) == some c) = true := by
      rw [hcfg]
      simp
    refine ⟨hch, ?_, ?_⟩
    · rw [deploy_run hc hl hu hb, resolveStage_direct hchb, hch, persistStage_same hw]
      apply importStage_selectFree
      simp [htr, Trace.empty, Trace.addLog, selectFree]
    · rw [deploy_run hc hl hu hb, resolveStage_direct hchb, hch, persistStage_same hw,
        importStage_writes]
      simp [htr, Trace.empty, Trace.addLog]

/-- C8 witness: the first deploy over a config with no stored contract
persists the resolved `Foo`, producing exactly the config the second run
reads; the second run resolves `Foo` from the store, shows no selection
prompt and writes nothing. -/
theorem c8_witness :
    (deploy noScEnv "testnet" false).trace.configWrites
      = [setSmartContract noScConfig "testnet" "Foo"] ∧
    setSmartContract noScConfig "testnet" "Foo" = happyConfig ∧
    chooseSmartContract happyConfig happyEnv.build "testnet" = "Foo" ∧
    selectFree (deploy happyEnv "testnet" false).trace.prompts = true ∧
    (deploy happyEnv "testnet" false).trace.configWrites = [] :=
  ⟨c8_persistence_idempotent.1 noScEnv "testnet" false noScConfig
      ⟨some "https://example/graphql", some "0.1", some "keys/testnet.json", none⟩ "Foo"
      rfl (by decide) (by decide) (by decide) (by decide) (by decide) (Or.inl (by decide)),
   by decide,
   (c8_persistence_idempotent.2 happyEnv "testnet" false happyConfig testnetCfg "Foo"
      rfl (by decide) (by decide) (by decide) (by decide) (by decide)).1,
   (c8_persistence_idempotent.2 happyEnv "testnet" false happyConfig testnetCfg "Foo"
      rfl (by decide) (by decide) (by decide) (by decide) (by decide)).2.1,
   (c8_persistence_idempotent.2 happyEnv "testnet" false happyConfig testnetCfg "Foo"
      rfl (by decide) (by decide) (by decide) (by decide) (by decide)).2.2⟩

/-- C9 (the claim is what the code intends, the code slips): the alias
records keyPath `mykeys/custom.json` and a key file exists exactly there,
yet deploy fails to read the key — it reads the hardcoded
`keys/NETWORK.json` instead, while its own error message tells the user
to fix the keyPath property; with both files on disk, the key that signs
is the one from `keys/testnet.json`, not the configured one. -/
theorem c9_keypath_ignored_at_failing_input :
    lookupNetwork customKeyPathConfig "testnet"
      = some ⟨some "https://example/graphql", some "0.1", some "mykeys/custom.json",
          some "Foo"⟩ ∧
    lookupKeyFile customKeyPathEnv.keyFiles "mykeys/custom.json" = some ⟨"SK2", "PK2"⟩ ∧
    (deploy customKeyPathEnv "testnet" true).outcome = .keyReadFailed ∧
    msgKeyReadFailed ∈ (deploy customKeyPathEnv "testnet" true).trace.logs ∧
    (deploy bothKeyFilesEnv "testnet" true).signed
      = some ⟨"PARTIES", ⟨"PUB:SK1", "3", "0.01000000000", ""⟩, "SK1"⟩ := by
  decide

/-- C10: deploy lowercases the alias argument before the configuration
lookup — runs whose arguments agree after lowercasing are identical, a
lowercased argument never equals a key containing an ASCII upper-case
letter, and a configuration whose alias keys all contain an upper-case
letter makes every deploy invocation report the alias as not found. -/
theorem c10_alias_lowercased :
    (∀ (env : DeployEnv) (a b : String) (yes : Bool),
        jsToLowerCase a = jsToLowerCase b → deploy env a yes = deploy env b yes) ∧
    (∀ (s k : String), containsUpperAscii k = true → k ≠ jsToLowerCase s) ∧
    (∀ (env : DeployEnv) (net : String) (yes : Bool) (config : Config),
        env.configRead = .ok config →
        config.networks.all (fun p => containsUpperAscii p.1) = true →
        (deploy env net yes).outcome = .networkNotFound) := by
  refine ⟨?_, ?_, ?_⟩
  · intro env a b yes h
    simp only [deploy, h]
  · intro s k hk heq
    rw [heq, containsUpperAscii_jsToLowerCase] at hk
    exact Bool.false_ne_true hk
  · intro env net yes config hc hall
    have hnone : lookupNetwork config (jsToLowerCase net) = none := by
      simp only [lookupNetwork, Option.map_eq_none']
      rw [List.find?_eq_none]
      intro p hp hbeq
      have hk : containsUpperAscii p.1 = true := by
        have := List.all_eq_true.mp hall p hp
        simpa using this
      have heq : p.1 = jsToLowerCase net := by simpa using hbeq
      rw [heq, containsUpperAscii_jsToLowerCase] at hk
      exact Bool.false_ne_true hk
    rw [deploy_noalias hc hnone]

/-- C10 witness: `TESTNET` and `TestNet` run identically; the stored key
`Testnet` can never equal a lowercased argument; a config storing only
`Mainnet` reports not-found for the `mainnet` (and any other) argument. -/
theorem c10_witness :
    deploy happyEnv "TESTNET" false = deploy happyEnv "TestNet" false ∧
    "Testnet" ≠ jsToLowerCase "testnet" ∧
    (deploy upperKeyEnv "mainnet" false).outcome = .networkNotFound :=
  ⟨c10_alias_lowercased.1 happyEnv "TESTNET" "TestNet" false (by decide),
   c10_alias_lowercased.2.1 "testnet" "Testnet" (by decide),
   c10_alias_lowercased.2.2 upperKeyEnv "mainnet" false upperKeyConfig rfl (by decide)⟩

end SnappCli
